import Mathlib

/-!
Shallow embedding of the localStorage-backed relational store (`db.js`) of the
EV Battery Database repository, together with theorems settling the frozen
claims about it.

Modelling conventions:
- A JavaScript value stored in a record field is a `Value`: `null`, a number
  (modelled as `ℚ`; the code performs no floating-point arithmetic on stored
  numbers, only storage and strict-equality comparison, so rationals are
  observationally faithful), or a string.
- A field of a loosely-typed input object is an `Option Value`: `none` stands
  for `undefined`/absent (the code only ever distinguishes values via
  `!== undefined` checks and `||` coercion, under which an explicitly supplied
  `undefined` behaves exactly like an absent key), `some v` for a supplied
  value, which may itself be `Value.null`.
- `localStorage` holds one entry per table; `getTable` parses it to an array
  and `saveTable` writes it back, so the persistent state is modelled as a
  `Store` of four lists.  Each operation returns its outcome together with the
  persistent state at function exit; on the throwing paths of the code no
  `saveTable` has executed, so those branches return the incoming store.
-/

inductive Value where
  | null : Value
  | num : ℚ → Value
  | str : String → Value
deriving DecidableEq, Repr

/-- JavaScript truthiness of a stored value (`NaN` does not arise: the store
never computes on stored numbers). -/
def Value.truthy : Value → Bool
  | .null => false
  | .num q => q != 0
  | .str s => s != ""

/-- `x || d` where `x` is a possibly-absent input field (`none` = `undefined`). -/
def jsOr (x : Option Value) (d : Value) : Value :=
  match x with
  | none => d
  | some v => if v.truthy then v else d

inductive DBError where
  | validation : String → DBError
  | notFound : String → DBError
  | conflict : String → DBError
deriving DecidableEq, Repr

deriving instance DecidableEq for Except

/-- Is this failure of the NotFound class? -/
def DBError.isNotFound : DBError → Bool
  | .notFound _ => true
  | _ => false

structure CellModel where
  id : Nat
  manufacturer : Value
  model : Value
  chemistry : Value
  nominalVoltage : Value
  nominalCapacityMah : Value
deriving DecidableEq, Repr

structure BatteryPack where
  id : Nat
  name : Value
  totalCapacityKwh : Value
  seriesCount : Value
  parallelCount : Value
  cellCount : Value
  cellModelId : Value
deriving DecidableEq, Repr

structure Car where
  id : Nat
  brand : Value
  model : Value
  trim : Value
  yearStart : Value
  yearEnd : Value
deriving DecidableEq, Repr

/-- Junction record.  `carBatteryPacks.create` stores the two foreign-key
fields verbatim, so they can be absent (`undefined` is dropped by
`JSON.stringify`, and an absent key reads back as `undefined`): both states
are modelled as `none`. -/
structure CarBatteryPack where
  id : Nat
  carId : Option Value
  batteryPackId : Option Value
deriving DecidableEq, Repr

structure CellModelInput where
  manufacturer : Option Value
  model : Option Value
  chemistry : Option Value
  nominalVoltage : Option Value
  nominalCapacityMah : Option Value
deriving DecidableEq, Repr

structure BatteryPackInput where
  name : Option Value
  totalCapacityKwh : Option Value
  seriesCount : Option Value
  parallelCount : Option Value
  cellCount : Option Value
  cellModelId : Option Value
deriving DecidableEq, Repr

structure CarInput where
  brand : Option Value
  model : Option Value
  trim : Option Value
  yearStart : Option Value
  yearEnd : Option Value
deriving DecidableEq, Repr

structure CarBatteryPackInput where
  carId : Option Value
  batteryPackId : Option Value
deriving DecidableEq, Repr

/-- The persistent state: one localStorage entry per table. -/
structure Store where
  cellModels : List CellModel
  batteryPacks : List BatteryPack
  cars : List Car
  carBatteryPacks : List CarBatteryPack
deriving DecidableEq, Repr

def emptyStore : Store := ⟨[], [], [], []⟩

/-- `getNextId`: `Math.max(...items.map(item => item.id)) + 1`, or `1` for an
empty table. -/
def getNextId (ids : List Nat) : Nat :=
  match ids with
  | [] => 1
  | _ :: _ => ids.foldl max 0 + 1

/-- `validateFK(fkValue, referencedTable)`: `null`/`undefined` pass; otherwise
some record of the referenced table must have `item.id === fkValue`.  The
table is passed by its list of ids. -/
def validateFK (fkValue : Option Value) (ids : List Nat) : Bool :=
  match fkValue with
  | none => true
  | some .null => true
  | some v => ids.any (fun i => Value.num i == v)

/-- `items[index] = f(items[index])` at the first index where `p` holds
(`findIndex` + assignment in the code). -/
def updateFirst {α : Type} (p : α → Bool) (f : α → α) : List α → List α
  | [] => []
  | x :: xs => if p x then f x :: xs else x :: updateFirst p f xs

namespace cellModels

def list (s : Store) : List CellModel :=
  s.cellModels

def get (s : Store) (id : Nat) : Option CellModel :=
  (list s).find? (fun item => item.id == id)

/-- The object literal `create` pushes: `data.field || default`. -/
def newRecord (s : Store) (data : CellModelInput) : CellModel :=
  { id := getNextId ((list s).map CellModel.id)
    manufacturer := jsOr data.manufacturer (.str "")
    model := jsOr data.model (.str "")
    chemistry := jsOr data.chemistry (.str "")
    nominalVoltage := jsOr data.nominalVoltage .null
    nominalCapacityMah := jsOr data.nominalCapacityMah .null }

def create (s : Store) (data : CellModelInput) : CellModel × Store :=
  (newRecord s data, { s with cellModels := list s ++ [newRecord s data] })

/-- The merged object `update` writes back:
`data.field !== undefined ? data.field : items[index].field`. -/
def merge (item : CellModel) (data : CellModelInput) : CellModel :=
  { id := item.id
    manufacturer := data.manufacturer.getD item.manufacturer
    model := data.model.getD item.model
    chemistry := data.chemistry.getD item.chemistry
    nominalVoltage := data.nominalVoltage.getD item.nominalVoltage
    nominalCapacityMah := data.nominalCapacityMah.getD item.nominalCapacityMah }

def update (s : Store) (id : Nat) (data : CellModelInput) :
    Except DBError CellModel × Store :=
  match (list s).find? (fun item => item.id == id) with
  | none => (.error (.notFound "Cell model not found"), s)
  | some item =>
      (.ok (merge item data),
       { s with cellModels :=
          updateFirst (fun i => i.id == id) (fun _ => merge item data) (list s) })

def remove (s : Store) (id : Nat) : Except DBError Bool × Store :=
  let packs := s.batteryPacks
  if packs.any (fun pack => pack.cellModelId == Value.num id) then
    (.error (.conflict "Cannot delete cell model: it is referenced by battery packs"), s)
  else
    let items := list s
    let filtered := items.filter (fun item => item.id != id)
    if filtered.length == items.length then
      (.error (.notFound "Cell model not found"), s)
    else
      (.ok true, { s with cellModels := filtered })

end cellModels

namespace batteryPacks

def list (s : Store) : List BatteryPack :=
  s.batteryPacks

def get (s : Store) (id : Nat) : Option BatteryPack :=
  (list s).find? (fun item => item.id == id)

/-- The object literal `create` pushes: `data.field || default`. -/
def newRecord (s : Store) (data : BatteryPackInput) : BatteryPack :=
  { id := getNextId ((list s).map BatteryPack.id)
    name := jsOr data.name (.str "")
    totalCapacityKwh := jsOr data.totalCapacityKwh .null
    seriesCount := jsOr data.seriesCount .null
    parallelCount := jsOr data.parallelCount .null
    cellCount := jsOr data.cellCount .null
    cellModelId := jsOr data.cellModelId .null }

def create (s : Store) (data : BatteryPackInput) :
    Except DBError BatteryPack × Store :=
  if !validateFK data.cellModelId (s.cellModels.map CellModel.id) then
    (.error (.validation "Invalid cellModelId: cell model does not exist"), s)
  else
    (.ok (newRecord s data), { s with batteryPacks := list s ++ [newRecord s data] })

/-- The merged object `update` writes back. -/
def merge (item : BatteryPack) (data : BatteryPackInput) : BatteryPack :=
  { id := item.id
    name := data.name.getD item.name
    totalCapacityKwh := data.totalCapacityKwh.getD item.totalCapacityKwh
    seriesCount := data.seriesCount.getD item.seriesCount
    parallelCount := data.parallelCount.getD item.parallelCount
    cellCount := data.cellCount.getD item.cellCount
    cellModelId := data.cellModelId.getD item.cellModelId }

def update (s : Store) (id : Nat) (data : BatteryPackInput) :
    Except DBError BatteryPack × Store :=
  if data.cellModelId.isSome && !validateFK data.cellModelId (s.cellModels.map CellModel.id) then
    (.error (.validation "Invalid cellModelId: cell model does not exist"), s)
  else
    match (list s).find? (fun item => item.id == id) with
    | none => (.error (.notFound "Battery pack not found"), s)
    | some item =>
        (.ok (merge item data),
         { s with batteryPacks :=
            updateFirst (fun i => i.id == id) (fun _ => merge item data) (list s) })

def remove (s : Store) (id : Nat) : Except DBError Bool × Store :=
  let relations := s.carBatteryPacks
  if relations.any (fun rel => rel.batteryPackId == some (Value.num id)) then
    (.error (.conflict "Cannot delete battery pack: it is referenced by car-battery relations"), s)
  else
    let items := list s
    let filtered := items.filter (fun item => item.id != id)
    if filtered.length == items.length then
      (.error (.notFound "Battery pack not found"), s)
    else
      (.ok true, { s with batteryPacks := filtered })

end batteryPacks

namespace cars

def list (s : Store) : List Car :=
  s.cars

def get (s : Store) (id : Nat) : Option Car :=
  (list s).find? (fun item => item.id == id)

/-- The object literal `create` pushes: `data.field || default`. -/
def newRecord (s : Store) (data : CarInput) : Car :=
  { id := getNextId ((list s).map Car.id)
    brand := jsOr data.brand (.str "")
    model := jsOr data.model (.str "")
    trim := jsOr data.trim .null
    yearStart := jsOr data.yearStart .null
    yearEnd := jsOr data.yearEnd .null }

def create (s : Store) (data : CarInput) : Car × Store :=
  (newRecord s data, { s with cars := list s ++ [newRecord s data] })

/-- The merged object `update` writes back. -/
def merge (item : Car) (data : CarInput) : Car :=
  { id := item.id
    brand := data.brand.getD item.brand
    model := data.model.getD item.model
    trim := data.trim.getD item.trim
    yearStart := data.yearStart.getD item.yearStart
    yearEnd := data.yearEnd.getD item.yearEnd }

def update (s : Store) (id : Nat) (data : CarInput) :
    Except DBError Car × Store :=
  match (list s).find? (fun item => item.id == id) with
  | none => (.error (.notFound "Car not found"), s)
  | some item =>
      (.ok (merge item data),
       { s with cars := updateFirst (fun i => i.id == id) (fun _ => merge item data) (list s) })

def remove (s : Store) (id : Nat) : Except DBError Bool × Store :=
  let relations := s.carBatteryPacks
  if relations.any (fun rel => rel.carId == some (Value.num id)) then
    (.error (.conflict "Cannot delete car: it is referenced by car-battery relations"), s)
  else
    let items := list s
    let filtered := items.filter (fun item => item.id != id)
    if filtered.length == items.length then
      (.error (.notFound "Car not found"), s)
    else
      (.ok true, { s with cars := filtered })

end cars

namespace carBatteryPacks

def list (s : Store) : List CarBatteryPack :=
  s.carBatteryPacks

def get (s : Store) (id : Nat) : Option CarBatteryPack :=
  (list s).find? (fun item => item.id == id)

/-- The object literal `create` pushes: both foreign-key fields are stored
verbatim, with no default substituted. -/
def newRecord (s : Store) (data : CarBatteryPackInput) : CarBatteryPack :=
  { id := getNextId ((list s).map CarBatteryPack.id)
    carId := data.carId
    batteryPackId := data.batteryPackId }

def create (s : Store) (data : CarBatteryPackInput) :
    Except DBError CarBatteryPack × Store :=
  if !validateFK data.carId (s.cars.map Car.id) then
    (.error (.validation "Invalid carId: car does not exist"), s)
  else if !validateFK data.batteryPackId (s.batteryPacks.map BatteryPack.id) then
    (.error (.validation "Invalid batteryPackId: battery pack does not exist"), s)
  else
    (.ok (newRecord s data), { s with carBatteryPacks := list s ++ [newRecord s data] })

/-- The merged object `update` writes back. -/
def merge (item : CarBatteryPack) (data : CarBatteryPackInput) : CarBatteryPack :=
  { id := item.id
    carId := if data.carId.isSome then data.carId else item.carId
    batteryPackId :=
      if data.batteryPackId.isSome then data.batteryPackId else item.batteryPackId }

def update (s : Store) (id : Nat) (data : CarBatteryPackInput) :
    Except DBError CarBatteryPack × Store :=
  if data.carId.isSome && !validateFK data.carId (s.cars.map Car.id) then
    (.error (.validation "Invalid carId: car does not exist"), s)
  else if data.batteryPackId.isSome &&
      !validateFK data.batteryPackId (s.batteryPacks.map BatteryPack.id) then
    (.error (.validation "Invalid batteryPackId: battery pack does not exist"), s)
  else
    match (list s).find? (fun item => item.id == id) with
    | none => (.error (.notFound "Relation not found"), s)
    | some item =>
        (.ok (merge item data),
         { s with carBatteryPacks :=
            updateFirst (fun i => i.id == id) (fun _ => merge item data) (list s) })

def remove (s : Store) (id : Nat) : Except DBError Bool × Store :=
  let items := list s
  let filtered := items.filter (fun item => item.id != id)
  if filtered.length == items.length then
    (.error (.notFound "Relation not found"), s)
  else
    (.ok true, { s with carBatteryPacks := filtered })

def getByCarId (s : Store) (carId : Nat) : List CarBatteryPack :=
  (list s).filter (fun item => item.carId == some (Value.num carId))

def getByBatteryPackId (s : Store) (batteryPackId : Nat) : List CarBatteryPack :=
  (list s).filter (fun item => item.batteryPackId == some (Value.num batteryPackId))

end carBatteryPacks

/-! Seed data (`loadInitialData`), transcribed from the source. -/

def vstr (s : String) : Option Value := some (.str s)

def vnum (q : ℚ) : Option Value := some (.num q)

def vnull : Option Value := some Value.null

def cellModelsData : List CellModelInput := [
  ⟨vstr "Shenzhen Starax Energy Technology", vstr "S28(B28)", vstr "Li-ION", vnum 3.63, vnum 55000⟩,
  ⟨vstr "LG", vstr "E63", vstr "Li-iON", vnum 3.6, vnum 64800⟩,
  ⟨vstr "Panasonic", vstr "NCR18650B", vstr "Li-ION", vnum 3.6, vnum 3350⟩,
  ⟨vstr "LG", vstr "INR21700-M50", vstr "Li-ION", vnum 3.63, vnull⟩,
  ⟨vstr "Panasonic", vstr "NCR21700", vstr "Li-ION", vnum 3.6, vnum 5000⟩,
  ⟨vstr "Panasonic", vstr "Prismatic PHEV2 - 22Ah", vstr "Li-ION", vnum 3.6, vnum 22000⟩,
  ⟨vstr "Panasonic", vstr "Prismatic PHEV2 - 25Ah", vstr "Li-ION", vnum 3.6, vnum 25000⟩,
  ⟨vstr "Panasonic", vstr "Prismatic PHEV2 - 51Ah", vstr "Li-ION", vnum 3.7, vnum 51000⟩,
  ⟨vstr "Ennocar", vstr "EC-H-Series-INS-G2-100.8", vstr "Ni-MH", vnum 14.4, vnum 6500⟩,
  ⟨vstr "Ennocar", vstr "EC-T-SERIES-SP-AQUA-7.2V", vstr "Ni-MH", vnum 7.2, vnum 6500⟩,
  ⟨vstr "AESC", vstr "32,5Ah Pouch", vstr "Li-ION", vnum 3.8, vnum 65000⟩,
  ⟨vstr "AESC", vstr "43Ah Pouch", vstr "Li-ION", vnum 3.7, vnum 86000⟩,
  ⟨vstr "GS Yuasa", vstr "LEV40", vstr "Li-ION", vnum 3.75, vnum 40000⟩,
  ⟨vstr "GS Yuasa", vstr "LEV40N", vstr "Li-ION", vnum 3.75, vnum 40000⟩,
  ⟨vstr "GS Yuasa", vstr "LEV50", vstr "Li-ION", vnum 3.75, vnum 50000⟩,
  ⟨vstr "GS Yuasa", vstr "LEV50N", vstr "Li-ION", vnum 3.75, vnum 40000⟩,
  ⟨vstr "Samsung SDI", vstr "Prismatic 60Ah", vstr "Li-ION", vnum 3.68, vnum 60000⟩,
  ⟨vstr "Samsung SDI", vstr "Prismatic 94Ah", vstr "Li-ION", vnum 3.68, vnum 94000⟩,
  ⟨vstr "Samsung SDI", vstr "Prismatic 120Ah", vstr "Li-ION", vnum 3.68, vnum 120000⟩,
  ⟨vstr "Toyota", vstr "NP2.0", vstr "Ni-MH", vnum 7.2, vnum 6500⟩,
  ⟨vstr "Panasonic", vstr "NCR2170A", vstr "Li-ION", vnum 3.6, vnum 4800⟩,
  ⟨vstr "Panasonic", vstr "NCR18650GA", vstr "Li-ION", vnum 3.6, vnum 3500⟩]

def carsData : List CarInput := [
  ⟨vstr "BMW", vstr "i3", vnull, vnum 2013, vnum 2016⟩,
  ⟨vstr "BMW", vstr "i3", vnull, vnum 2016, vnum 2018⟩,
  ⟨vstr "BMW", vstr "i3s", vnull, vnum 2017, vnum 2018⟩,
  ⟨vstr "Citroën", vstr "C-zero", vnull, vnum 2010, vnum 2013⟩,
  ⟨vstr "Citroën", vstr "C-zero", vnull, vnum 2013, vnum 2016⟩,
  ⟨vstr "Citroën", vstr "C-zero", vnull, vnum 2016, vnum 2020⟩,
  ⟨vstr "Hyundai", vstr "Kona", vstr "64kWh", vnum 2017, vnum 2023⟩,
  ⟨vstr "Hyundai", vstr "Kona", vstr "39.2kWh", vnum 2017, vnum 2023⟩,
  ⟨vstr "Mitsubishi", vstr "i-MiEV", vnull, vnum 2010, vnum 2013⟩,
  ⟨vstr "Mitsubishi", vstr "i-MiEV", vnull, vnum 2013, vnum 2016⟩,
  ⟨vstr "Mitsubishi", vstr "i-MiEV", vnull, vnum 2016, vnum 2020⟩,
  ⟨vstr "Mitsubishi", vstr "Outlander PHEV", vnull, vnum 2013, vnum 2018⟩,
  ⟨vstr "Mitsubishi", vstr "Outlander PHEV", vnull, vnum 2018, vnum 2021⟩,
  ⟨vstr "Mitsubishi", vstr "Outlander PHEV", vnull, vnum 2021, vnum 2024⟩,
  ⟨vstr "Nissan", vstr "Leaf", vstr "24kWh", vnum 2010, vnum 2016⟩,
  ⟨vstr "Nissan", vstr "Leaf", vstr "30kWh", vnum 2016, vnum 2017⟩,
  ⟨vstr "Peugeot", vstr "iOn", vnull, vnum 2010, vnum 2013⟩,
  ⟨vstr "Peugeot", vstr "iOn", vnull, vnum 2013, vnum 2016⟩,
  ⟨vstr "Peugeot", vstr "iOn", vnull, vnum 2016, vnum 2020⟩,
  ⟨vstr "Tesla", vstr "Model 3", vstr "Long Range Performance", vnum 2019, vnum 2020⟩,
  ⟨vstr "Tesla", vstr "Model 3", vstr "Standard Range Plus", vnum 2019, vnum 2020⟩,
  ⟨vstr "Tesla", vstr "Model S", vstr "P85", vnum 2012, vnum 2014⟩,
  ⟨vstr "Tesla", vstr "Model S", vstr "P100D", vnum 2016, vnum 2019⟩,
  ⟨vstr "Tesla", vstr "Model X", vstr "P100D", vnum 2017, vnum 2019⟩,
  ⟨vstr "Toyota", vstr "Prius", vnull, vnum 2000, vnum 2003⟩,
  ⟨vstr "Toyota", vstr "Prius", vnull, vnum 2003, vnum 2009⟩,
  ⟨vstr "Toyota", vstr "Prius PHEV", vnull, vnum 2012, vnum 2016⟩,
  ⟨vstr "Toyota", vstr "Prius PHEV", vnull, vnum 2016, vnum 2022⟩]

def batteryPacksData : List BatteryPackInput := [
  ⟨vstr "BMW i3 21.6kWh (Samsung 60Ah)", vnum 21.6, vnull, vnull, vnull, vnum 17⟩,
  ⟨vstr "BMW i3 33.2kWh (Samsung 94Ah)", vnum 33.2, vnull, vnull, vnull, vnum 18⟩,
  ⟨vstr "Citroën C-zero 16kWh (LEV50)", vnum 16.0, vnull, vnull, vnull, vnum 15⟩,
  ⟨vstr "Citroën C-zero 16kWh (LEV50N)", vnum 16.0, vnull, vnull, vnull, vnum 16⟩,
  ⟨vstr "Hyundai Kona 64kWh", vnum 64.0, vnull, vnull, vnull, vnum 1⟩,
  ⟨vstr "Hyundai Kona 39.2kWh", vnum 39.2, vnull, vnull, vnull, vnum 1⟩,
  ⟨vstr "Mitsubishi i-MiEV 16kWh (LEV50)", vnum 16.0, vnull, vnull, vnull, vnum 15⟩,
  ⟨vstr "Mitsubishi i-MiEV 16kWh (LEV50N)", vnum 16.0, vnull, vnull, vnull, vnum 16⟩,
  ⟨vstr "Mitsubishi Outlander 12kWh", vnum 12.0, vnull, vnull, vnull, vnum 13⟩,
  ⟨vstr "Mitsubishi Outlander 13.8kWh", vnum 13.8, vnull, vnull, vnull, vnum 14⟩,
  ⟨vstr "Mitsubishi Outlander 20kWh", vnum 20.0, vnull, vnull, vnull, vnum 14⟩,
  ⟨vstr "Nissan Leaf 24kWh", vnum 24.0, vnull, vnull, vnull, vnum 11⟩,
  ⟨vstr "Nissan Leaf 30kWh", vnum 30.0, vnull, vnull, vnull, vnum 12⟩,
  ⟨vstr "Tesla Model 3 LR 78.8kWh", vnum 78.8, vnull, vnull, vnull, vnum 21⟩,
  ⟨vstr "Tesla Model 3 SR 53.1kWh", vnum 53.1, vnull, vnull, vnull, vnum 21⟩,
  ⟨vstr "Tesla Model S 85kWh", vnum 85.0, vnull, vnull, vnull, vnum 3⟩,
  ⟨vstr "Tesla Model S 100kWh", vnum 100.0, vnull, vnull, vnull, vnum 22⟩,
  ⟨vstr "Toyota Prius 1.78kWh", vnum 1.78, vnull, vnull, vnull, vnum 20⟩,
  ⟨vstr "Toyota Prius 1.3kWh", vnum 1.3, vnull, vnull, vnull, vnum 20⟩,
  ⟨vstr "Toyota Prius PHEV 5.2kWh", vnum 5.2, vnull, vnull, vnull, vnum 6⟩,
  ⟨vstr "Toyota Prius PHEV 8.8kWh", vnum 8.8, vnull, vnull, vnull, vnum 6⟩]

def relationsData : List CarBatteryPackInput := [
  ⟨vnum 1, vnum 1⟩, ⟨vnum 2, vnum 2⟩, ⟨vnum 3, vnum 2⟩, ⟨vnum 4, vnum 3⟩,
  ⟨vnum 5, vnum 4⟩, ⟨vnum 6, vnum 4⟩, ⟨vnum 7, vnum 5⟩, ⟨vnum 8, vnum 6⟩,
  ⟨vnum 9, vnum 7⟩, ⟨vnum 10, vnum 8⟩, ⟨vnum 11, vnum 8⟩, ⟨vnum 12, vnum 9⟩,
  ⟨vnum 13, vnum 10⟩, ⟨vnum 14, vnum 11⟩, ⟨vnum 15, vnum 12⟩, ⟨vnum 16, vnum 13⟩,
  ⟨vnum 17, vnum 3⟩, ⟨vnum 18, vnum 4⟩, ⟨vnum 19, vnum 4⟩, ⟨vnum 20, vnum 14⟩,
  ⟨vnum 21, vnum 15⟩, ⟨vnum 22, vnum 16⟩, ⟨vnum 23, vnum 17⟩, ⟨vnum 24, vnum 17⟩,
  ⟨vnum 25, vnum 18⟩, ⟨vnum 26, vnum 19⟩, ⟨vnum 27, vnum 20⟩, ⟨vnum 28, vnum 21⟩]

/-- `batteryPacksData.forEach(pack => batteryPacks.create(pack))`: a thrown
validation failure propagates out of `loadInitialData`. -/
def createAllPacks : Store → List BatteryPackInput → Except DBError Store
  | s, [] => .ok s
  | s, d :: rest =>
      match batteryPacks.create s d with
      | (.ok _, s2) => createAllPacks s2 rest
      | (.error e, _) => .error e

def createAllRelations : Store → List CarBatteryPackInput → Except DBError Store
  | s, [] => .ok s
  | s, d :: rest =>
      match carBatteryPacks.create s d with
      | (.ok _, s2) => createAllRelations s2 rest
      | (.error e, _) => .error e

/-- `loadInitialData()`: seed all four tables through the ordinary `create`
path, in dependency order (cell models, cars, battery packs, relations). -/
def loadInitialData (s : Store) : Except DBError Store :=
  let s1 := cellModelsData.foldl (fun acc d => (cellModels.create acc d).2) s
  let s2 := carsData.foldl (fun acc d => (cars.create acc d).2) s1
  match createAllPacks s2 batteryPacksData with
  | .error e => .error e
  | .ok s3 => createAllRelations s3 relationsData

/-- `DB.reset()`: remove all four localStorage entries, then `initDB()`.  After
the removal `getItem(TABLES.cellModels)` is null, so `initDB` runs
`loadInitialData` against an empty store; the incoming state is discarded. -/
def DB.reset (_ : Store) : Except DBError Store :=
  loadInitialData emptyStore

/-- The store produced by seeding from empty (first initialization). -/
def seededStore : Store :=
  match loadInitialData emptyStore with
  | .ok s => s
  | .error _ => emptyStore

/-! Operation alphabet: every mutating call of the public API, with arbitrary
caller-supplied input. -/

inductive Op where
  | cmCreate (data : CellModelInput)
  | cmUpdate (id : Nat) (data : CellModelInput)
  | cmRemove (id : Nat)
  | bpCreate (data : BatteryPackInput)
  | bpUpdate (id : Nat) (data : BatteryPackInput)
  | bpRemove (id : Nat)
  | carCreate (data : CarInput)
  | carUpdate (id : Nat) (data : CarInput)
  | carRemove (id : Nat)
  | cbpCreate (data : CarBatteryPackInput)
  | cbpUpdate (id : Nat) (data : CarBatteryPackInput)
  | cbpRemove (id : Nat)
deriving DecidableEq, Repr

/-- Run one operation: outcome (with the record result erased) and the
persistent state at exit. -/
def applyOp (s : Store) : Op → Except DBError Unit × Store
  | .cmCreate d => (.ok (), (cellModels.create s d).2)
  | .cmUpdate id d => ((cellModels.update s id d).1.map (fun _ => ()), (cellModels.update s id d).2)
  | .cmRemove id => ((cellModels.remove s id).1.map (fun _ => ()), (cellModels.remove s id).2)
  | .bpCreate d => ((batteryPacks.create s d).1.map (fun _ => ()), (batteryPacks.create s d).2)
  | .bpUpdate id d => ((batteryPacks.update s id d).1.map (fun _ => ()), (batteryPacks.update s id d).2)
  | .bpRemove id => ((batteryPacks.remove s id).1.map (fun _ => ()), (batteryPacks.remove s id).2)
  | .carCreate d => (.ok (), (cars.create s d).2)
  | .carUpdate id d => ((cars.update s id d).1.map (fun _ => ()), (cars.update s id d).2)
  | .carRemove id => ((cars.remove s id).1.map (fun _ => ()), (cars.remove s id).2)
  | .cbpCreate d => ((carBatteryPacks.create s d).1.map (fun _ => ()), (carBatteryPacks.create s d).2)
  | .cbpUpdate id d =>
      ((carBatteryPacks.update s id d).1.map (fun _ => ()), (carBatteryPacks.update s id d).2)
  | .cbpRemove id => ((carBatteryPacks.remove s id).1.map (fun _ => ()), (carBatteryPacks.remove s id).2)

/-- Run a sequence of operations, keeping the state each one leaves behind
(a failed call leaves the state it found). -/
def runOps (s : Store) (ops : List Op) : Store :=
  ops.foldl (fun acc op => (applyOp acc op).2) s

/-- Referential integrity of a state: every foreign-key field of every record
passes `validateFK` against its target table (i.e. is null/absent or names an
existing id). -/
def refInt (s : Store) : Bool :=
  s.batteryPacks.all (fun p => validateFK (some p.cellModelId) (s.cellModels.map CellModel.id)) &&
  s.carBatteryPacks.all (fun r =>
    validateFK r.carId (s.cars.map Car.id) &&
    validateFK r.batteryPackId (s.batteryPacks.map BatteryPack.id))

/-- Identifier uniqueness in every table. -/
def idsNodup (s : Store) : Prop :=
  (s.cellModels.map CellModel.id).Nodup ∧ (s.batteryPacks.map BatteryPack.id).Nodup ∧
    (s.cars.map Car.id).Nodup ∧ (s.carBatteryPacks.map CarBatteryPack.id).Nodup

instance (s : Store) : Decidable (idsNodup s) := by
  unfold idsNodup
  infer_instance

/-! Auxiliary lemmas. -/

theorem init_le_foldl_max (l : List Nat) (a : Nat) : a ≤ l.foldl max a := by
  induction l generalizing a with
  | nil => exact Nat.le_refl a
  | cons x xs ih => exact Nat.le_trans (Nat.le_max_left a x) (ih (max a x))

theorem le_foldl_max (l : List Nat) (a i : Nat) (h : i ∈ l) : i ≤ l.foldl max a := by
  induction l generalizing a with
  | nil => cases h
  | cons x xs ih =>
      rcases List.mem_cons.mp h with rfl | hx
      · exact Nat.le_trans (Nat.le_max_right a i) (init_le_foldl_max xs (max a i))
      · exact ih (max a x) hx

/-- A freshly assigned identifier exceeds every identifier in the table. -/
theorem id_lt_getNextId (ids : List Nat) (i : Nat) (h : i ∈ ids) : i < getNextId ids := by
  cases ids with
  | nil => cases h
  | cons x xs => exact Nat.lt_succ_of_le (le_foldl_max (x :: xs) 0 i h)

theorem find?_split {α : Type} (p : α → Bool) (l : List α) (x : α) (h : l.find? p = some x) :
    ∃ l₁ l₂, l = l₁ ++ x :: l₂ ∧ (∀ y ∈ l₁, p y = false) ∧ p x = true := by
  induction l with
  | nil => simp [List.find?] at h
  | cons a as ih =>
      cases hpa : p a with
      | true =>
          rw [List.find?_cons_of_pos _ hpa] at h
          obtain rfl : a = x := by injection h
          exact ⟨[], as, rfl, by simp, hpa⟩
      | false =>
          rw [List.find?_cons_of_neg _ (by simp [hpa])] at h
          obtain ⟨l₁, l₂, rfl, h₁, h₂⟩ := ih h
          refine ⟨a :: l₁, l₂, rfl, ?_, h₂⟩
          intro y hy
          rcases List.mem_cons.mp hy with rfl | hy₂
          · exact hpa
          · exact h₁ y hy₂

theorem updateFirst_append {α : Type} (p : α → Bool) (f : α → α) (l₁ : List α) (x : α)
    (l₂ : List α) (h₁ : ∀ y ∈ l₁, p y = false) (hx : p x = true) :
    updateFirst p f (l₁ ++ x :: l₂) = l₁ ++ f x :: l₂ := by
  induction l₁ with
  | nil => simp [updateFirst, hx]
  | cons a as ih =>
      have ha : p a = false := h₁ a (List.mem_cons_self a as)
      simp only [List.cons_append, updateFirst, ha, Bool.false_eq_true, if_false,
        List.append_eq]
      rw [ih (fun y hy => h₁ y (List.mem_cons_of_mem a hy))]

theorem updateFirst_map {α β : Type} (p : α → Bool) (f : α → α) (g : α → β) (l : List α)
    (h : ∀ x ∈ l, p x = true → g (f x) = g x) :
    (updateFirst p f l).map g = l.map g := by
  induction l with
  | nil => rfl
  | cons a as ih =>
      cases hpa : p a with
      | true => simp [updateFirst, hpa, h a (List.mem_cons_self a as) hpa]
      | false => simp [updateFirst, hpa, ih (fun x hx hpx => h x (List.mem_cons_of_mem a hx) hpx)]

theorem all_updateFirst {α : Type} (p : α → Bool) (f : α → α) (q : α → Bool) (l : List α)
    (h : l.all q = true) (hf : ∀ x ∈ l, p x = true → q (f x) = true) :
    (updateFirst p f l).all q = true := by
  induction l with
  | nil => rfl
  | cons a as ih =>
      rw [List.all_cons, Bool.and_eq_true] at h
      cases hpa : p a with
      | true =>
          simp only [updateFirst, hpa, if_true, List.all_cons, Bool.and_eq_true]
          exact ⟨hf a (List.mem_cons_self a as) hpa, h.2⟩
      | false =>
          simp only [updateFirst, hpa, Bool.false_eq_true, if_false, List.all_cons,
            Bool.and_eq_true]
          exact ⟨h.1, ih h.2 (fun x hx hpx => hf x (List.mem_cons_of_mem a hx) hpx)⟩

theorem find?_append_fresh {α : Type} (l : List α) (r : α) (p : α → Bool)
    (h : ∀ x ∈ l, p x = false) (hr : p r = true) : (l ++ [r]).find? p = some r := by
  induction l with
  | nil => simp [List.find?_cons_of_pos _ hr]
  | cons a as ih =>
      rw [List.cons_append,
        List.find?_cons_of_neg _ (by simp [h a (List.mem_cons_self a as)])]
      exact ih (fun x hx => h x (List.mem_cons_of_mem a hx))

theorem all_filter_of_all {α : Type} (p q : α → Bool) (l : List α) (h : l.all q = true) :
    (l.filter p).all q = true := by
  rw [List.all_eq_true] at h ⊢
  intro x hx
  exact h x (List.mem_of_mem_filter hx)

theorem length_filter_ne {α : Type} (p : α → Bool) (l : List α) (x : α) (hx : x ∈ l)
    (hpx : p x = false) : (l.filter p).length ≠ l.length := by
  intro hlen
  have hself : l.filter p = l := (List.Sublist.eq_of_length (List.filter_sublist l) hlen)
  have : p x = true := List.of_mem_filter (hself ▸ hx)
  rw [hpx] at this
  cases this

/-- `validateFK` on a supplied non-null value is the linear scan of the ids. -/
theorem validateFK_some_eq (v : Value) (ids : List Nat) (hv : v ≠ Value.null) :
    validateFK (some v) ids = ids.any (fun i => Value.num i == v) := by
  cases v with
  | null => exact absurd rfl hv
  | num q => rfl
  | str t => rfl

theorem validateFK_mono {v : Option Value} {ids ids2 : List Nat}
    (hsub : ∀ i ∈ ids, i ∈ ids2) (h : validateFK v ids = true) : validateFK v ids2 = true := by
  cases v with
  | none => rfl
  | some w =>
      by_cases hw : w = Value.null
      · subst hw; rfl
      · rw [validateFK_some_eq _ _ hw] at h ⊢
        rw [List.any_eq_true] at h ⊢
        obtain ⟨i, hi, hieq⟩ := h
        exact ⟨i, hsub i hi, hieq⟩

/-- Removing records whose id differs from every id a foreign key can mention
preserves validation. -/
theorem validateFK_filter {α : Type} (gid : α → Nat) (items : List α) (id : Nat)
    (v : Option Value) (h : validateFK v (items.map gid) = true)
    (hne : v ≠ some (Value.num (id : ℚ))) :
    validateFK v ((items.filter (fun x => gid x != id)).map gid) = true := by
  cases v with
  | none => rfl
  | some w =>
      by_cases hw : w = Value.null
      · subst hw; rfl
      · rw [validateFK_some_eq _ _ hw] at h ⊢
        rw [List.any_eq_true] at h ⊢
        obtain ⟨i, hi, hieq⟩ := h
        have hiw : Value.num (i : ℚ) = w := by simpa using hieq
        obtain ⟨x, hx, rfl⟩ := List.mem_map.mp hi
        have hxid : gid x ≠ id := by
          intro hcon
          apply hne
          rw [← hiw, hcon]
        refine ⟨gid x, ?_, hieq⟩
        refine List.mem_map_of_mem gid (List.mem_filter.mpr ⟨hx, ?_⟩)
        simpa using hxid

/-- The value `create` stores for a validated foreign-key field
(`data.fk || null`) still validates. -/
theorem validateFK_jsOr {v : Option Value} {ids : List Nat} (h : validateFK v ids = true) :
    validateFK (some (jsOr v Value.null)) ids = true := by
  cases v with
  | none => rfl
  | some w =>
      cases ht : w.truthy with
      | true => simpa [jsOr, ht] using h
      | false =>
          simp only [jsOr, ht, Bool.false_eq_true, if_false]
          rfl

/-! Case analyses of each mutating operation: either it fails having written
nothing, or it succeeds with the stated table contents. -/

theorem cmCreate_eq (s : Store) (d : CellModelInput) :
    cellModels.create s d =
      (cellModels.newRecord s d,
       { s with cellModels := s.cellModels ++ [cellModels.newRecord s d] }) := rfl

theorem carCreate_eq (s : Store) (d : CarInput) :
    cars.create s d =
      (cars.newRecord s d, { s with cars := s.cars ++ [cars.newRecord s d] }) := rfl

theorem bpCreate_cases (s : Store) (d : BatteryPackInput) :
    (∃ e, batteryPacks.create s d = (.error e, s)) ∨
    (validateFK d.cellModelId (s.cellModels.map CellModel.id) = true ∧
      batteryPacks.create s d =
        (.ok (batteryPacks.newRecord s d),
         { s with batteryPacks := s.batteryPacks ++ [batteryPacks.newRecord s d] })) := by
  cases hval : validateFK d.cellModelId (s.cellModels.map CellModel.id) with
  | false => exact Or.inl ⟨.validation "Invalid cellModelId: cell model does not exist",
        by simp [batteryPacks.create, hval]⟩
  | true => exact Or.inr ⟨rfl, by simp [batteryPacks.create, hval, batteryPacks.list]⟩

theorem cbpCreate_cases (s : Store) (d : CarBatteryPackInput) :
    (∃ e, carBatteryPacks.create s d = (.error e, s)) ∨
    (validateFK d.carId (s.cars.map Car.id) = true ∧
      validateFK d.batteryPackId (s.batteryPacks.map BatteryPack.id) = true ∧
      carBatteryPacks.create s d =
        (.ok (carBatteryPacks.newRecord s d),
         { s with carBatteryPacks := s.carBatteryPacks ++ [carBatteryPacks.newRecord s d] })) := by
  cases hv1 : validateFK d.carId (s.cars.map Car.id) with
  | false => exact Or.inl ⟨.validation "Invalid carId: car does not exist",
        by simp [carBatteryPacks.create, hv1]⟩
  | true =>
      cases hv2 : validateFK d.batteryPackId (s.batteryPacks.map BatteryPack.id) with
      | false => exact Or.inl ⟨.validation "Invalid batteryPackId: battery pack does not exist",
            by simp [carBatteryPacks.create, hv1, hv2]⟩
      | true =>
          exact Or.inr ⟨rfl, rfl,
            by simp [carBatteryPacks.create, hv1, hv2, carBatteryPacks.list]⟩

theorem cmUpdate_cases (s : Store) (id : Nat) (d : CellModelInput) :
    cellModels.update s id d = (.error (.notFound "Cell model not found"), s) ∨
    (∃ l₁ item l₂,
      s.cellModels = l₁ ++ item :: l₂ ∧ (∀ y ∈ l₁, (y.id == id) = false) ∧
      (item.id == id) = true ∧
      cellModels.update s id d =
        (.ok (cellModels.merge item d),
         { s with cellModels := l₁ ++ cellModels.merge item d :: l₂ })) := by
  cases hfind : s.cellModels.find? (fun item => item.id == id) with
  | none => exact Or.inl (by simp [cellModels.update, cellModels.list, hfind])
  | some item =>
      obtain ⟨l₁, l₂, hdec, h₁, h₂⟩ := find?_split _ _ _ hfind
      refine Or.inr ⟨l₁, item, l₂, hdec, h₁, h₂, ?_⟩
      have hupd : updateFirst (fun i => i.id == id) (fun _ => cellModels.merge item d)
          s.cellModels = l₁ ++ cellModels.merge item d :: l₂ := by
        rw [hdec]
        exact updateFirst_append _ _ l₁ item l₂ h₁ h₂
      simp [cellModels.update, cellModels.list, hfind, hupd]

theorem carUpdate_cases (s : Store) (id : Nat) (d : CarInput) :
    cars.update s id d = (.error (.notFound "Car not found"), s) ∨
    (∃ l₁ item l₂,
      s.cars = l₁ ++ item :: l₂ ∧ (∀ y ∈ l₁, (y.id == id) = false) ∧
      (item.id == id) = true ∧
      cars.update s id d =
        (.ok (cars.merge item d), { s with cars := l₁ ++ cars.merge item d :: l₂ })) := by
  cases hfind : s.cars.find? (fun item => item.id == id) with
  | none => exact Or.inl (by simp [cars.update, cars.list, hfind])
  | some item =>
      obtain ⟨l₁, l₂, hdec, h₁, h₂⟩ := find?_split _ _ _ hfind
      refine Or.inr ⟨l₁, item, l₂, hdec, h₁, h₂, ?_⟩
      have hupd : updateFirst (fun i => i.id == id) (fun _ => cars.merge item d)
          s.cars = l₁ ++ cars.merge item d :: l₂ := by
        rw [hdec]
        exact updateFirst_append _ _ l₁ item l₂ h₁ h₂
      simp [cars.update, cars.list, hfind, hupd]

theorem bpUpdate_cases (s : Store) (id : Nat) (d : BatteryPackInput) :
    (∃ e, batteryPacks.update s id d = (.error e, s)) ∨
    (∃ l₁ item l₂,
      s.batteryPacks = l₁ ++ item :: l₂ ∧ (∀ y ∈ l₁, (y.id == id) = false) ∧
      (item.id == id) = true ∧
      (d.cellModelId.isSome = true →
        validateFK d.cellModelId (s.cellModels.map CellModel.id) = true) ∧
      batteryPacks.update s id d =
        (.ok (batteryPacks.merge item d),
         { s with batteryPacks := l₁ ++ batteryPacks.merge item d :: l₂ })) := by
  cases hc : d.cellModelId.isSome && !validateFK d.cellModelId (s.cellModels.map CellModel.id) with
  | true => exact Or.inl ⟨.validation "Invalid cellModelId: cell model does not exist",
        by simp [batteryPacks.update, hc]⟩
  | false =>
      have himp : d.cellModelId.isSome = true →
          validateFK d.cellModelId (s.cellModels.map CellModel.id) = true := by
        intro hs
        rw [hs, Bool.true_and, Bool.not_eq_false'] at hc
        exact hc
      cases hfind : s.batteryPacks.find? (fun item => item.id == id) with
      | none => exact Or.inl ⟨.notFound "Battery pack not found",
            by simp [batteryPacks.update, hc, batteryPacks.list, hfind]⟩
      | some item =>
          obtain ⟨l₁, l₂, hdec, h₁, h₂⟩ := find?_split _ _ _ hfind
          refine Or.inr ⟨l₁, item, l₂, hdec, h₁, h₂, himp, ?_⟩
          have hupd : updateFirst (fun i => i.id == id) (fun _ => batteryPacks.merge item d)
              s.batteryPacks = l₁ ++ batteryPacks.merge item d :: l₂ := by
            rw [hdec]
            exact updateFirst_append _ _ l₁ item l₂ h₁ h₂
          simp [batteryPacks.update, hc, batteryPacks.list, hfind, hupd]

theorem cbpUpdate_cases (s : Store) (id : Nat) (d : CarBatteryPackInput) :
    (∃ e, carBatteryPacks.update s id d = (.error e, s)) ∨
    (∃ l₁ item l₂,
      s.carBatteryPacks = l₁ ++ item :: l₂ ∧ (∀ y ∈ l₁, (y.id == id) = false) ∧
      (item.id == id) = true ∧
      (d.carId.isSome = true → validateFK d.carId (s.cars.map Car.id) = true) ∧
      (d.batteryPackId.isSome = true →
        validateFK d.batteryPackId (s.batteryPacks.map BatteryPack.id) = true) ∧
      carBatteryPacks.update s id d =
        (.ok (carBatteryPacks.merge item d),
         { s with carBatteryPacks := l₁ ++ carBatteryPacks.merge item d :: l₂ })) := by
  cases hc1 : d.carId.isSome && !validateFK d.carId (s.cars.map Car.id) with
  | true => exact Or.inl ⟨.validation "Invalid carId: car does not exist",
        by simp [carBatteryPacks.update, hc1]⟩
  | false =>
      have himp1 : d.carId.isSome = true → validateFK d.carId (s.cars.map Car.id) = true := by
        intro hs
        rw [hs, Bool.true_and, Bool.not_eq_false'] at hc1
        exact hc1
      cases hc2 : d.batteryPackId.isSome &&
          !validateFK d.batteryPackId (s.batteryPacks.map BatteryPack.id) with
      | true => exact Or.inl ⟨.validation "Invalid batteryPackId: battery pack does not exist",
            by simp [carBatteryPacks.update, hc1, hc2]⟩
      | false =>
          have himp2 : d.batteryPackId.isSome = true →
              validateFK d.batteryPackId (s.batteryPacks.map BatteryPack.id) = true := by
            intro hs
            rw [hs, Bool.true_and, Bool.not_eq_false'] at hc2
            exact hc2
          cases hfind : s.carBatteryPacks.find? (fun item => item.id == id) with
          | none =>
              exact Or.inl ⟨.notFound "Relation not found", by
                simp [carBatteryPacks.update, hc1, hc2, carBatteryPacks.list, hfind]⟩
          | some item =>
              obtain ⟨l₁, l₂, hdec, h₁, h₂⟩ := find?_split _ _ _ hfind
              refine Or.inr ⟨l₁, item, l₂, hdec, h₁, h₂, himp1, himp2, ?_⟩
              have hupd : updateFirst (fun i => i.id == id)
                  (fun _ => carBatteryPacks.merge item d) s.carBatteryPacks =
                  l₁ ++ carBatteryPacks.merge item d :: l₂ := by
                rw [hdec]
                exact updateFirst_append _ _ l₁ item l₂ h₁ h₂
              simp [carBatteryPacks.update, hc1, hc2, carBatteryPacks.list, hfind, hupd]

theorem cmRemove_cases (s : Store) (id : Nat) :
    (∃ e, cellModels.remove s id = (.error e, s)) ∨
    (s.batteryPacks.any (fun pack => pack.cellModelId == Value.num (id : ℚ)) = false ∧
      cellModels.remove s id =
        (.ok true, { s with cellModels := s.cellModels.filter (fun item => item.id != id) })) := by
  cases hg : s.batteryPacks.any (fun pack => pack.cellModelId == Value.num (id : ℚ)) with
  | true => exact Or.inl ⟨.conflict "Cannot delete cell model: it is referenced by battery packs",
        by simp [cellModels.remove, hg]⟩
  | false =>
      cases hlen : (s.cellModels.filter (fun item => item.id != id)).length == s.cellModels.length
      case true => exact Or.inl ⟨.notFound "Cell model not found",
          by simp [cellModels.remove, hg, cellModels.list, hlen]⟩
      case false => exact Or.inr ⟨rfl, by simp [cellModels.remove, hg, cellModels.list, hlen]⟩

theorem bpRemove_cases (s : Store) (id : Nat) :
    (∃ e, batteryPacks.remove s id = (.error e, s)) ∨
    (s.carBatteryPacks.any (fun rel => rel.batteryPackId == some (Value.num (id : ℚ))) = false ∧
      batteryPacks.remove s id =
        (.ok true,
         { s with batteryPacks := s.batteryPacks.filter (fun item => item.id != id) })) := by
  cases hg : s.carBatteryPacks.any (fun rel => rel.batteryPackId == some (Value.num (id : ℚ))) with
  | true => exact Or.inl ⟨.conflict "Cannot delete battery pack: it is referenced by car-battery relations",
        by simp [batteryPacks.remove, hg]⟩
  | false =>
      cases hlen : (s.batteryPacks.filter (fun item => item.id != id)).length == s.batteryPacks.length
      case true => exact Or.inl ⟨.notFound "Battery pack not found",
          by simp [batteryPacks.remove, hg, batteryPacks.list, hlen]⟩
      case false => exact Or.inr ⟨rfl, by simp [batteryPacks.remove, hg, batteryPacks.list, hlen]⟩

theorem carRemove_cases (s : Store) (id : Nat) :
    (∃ e, cars.remove s id = (.error e, s)) ∨
    (s.carBatteryPacks.any (fun rel => rel.carId == some (Value.num (id : ℚ))) = false ∧
      cars.remove s id =
        (.ok true, { s with cars := s.cars.filter (fun item => item.id != id) })) := by
  cases hg : s.carBatteryPacks.any (fun rel => rel.carId == some (Value.num (id : ℚ))) with
  | true => exact Or.inl ⟨.conflict "Cannot delete car: it is referenced by car-battery relations",
        by simp [cars.remove, hg]⟩
  | false =>
      cases hlen : (s.cars.filter (fun item => item.id != id)).length == s.cars.length
      case true => exact Or.inl ⟨.notFound "Car not found",
          by simp [cars.remove, hg, cars.list, hlen]⟩
      case false => exact Or.inr ⟨rfl, by simp [cars.remove, hg, cars.list, hlen]⟩

theorem cbpRemove_cases (s : Store) (id : Nat) :
    (∃ e, carBatteryPacks.remove s id = (.error e, s)) ∨
    carBatteryPacks.remove s id =
      (.ok true,
       { s with carBatteryPacks := s.carBatteryPacks.filter (fun item => item.id != id) }) := by
  cases hlen : (s.carBatteryPacks.filter (fun item => item.id != id)).length ==
      s.carBatteryPacks.length
  case true => exact Or.inl ⟨.notFound "Relation not found",
      by simp [carBatteryPacks.remove, carBatteryPacks.list, hlen]⟩
  case false => exact Or.inr (by simp [carBatteryPacks.remove, carBatteryPacks.list, hlen])

/-! Preservation of referential integrity by every operation. -/

theorem refInt_iff (s : Store) : refInt s = true ↔
    (∀ p ∈ s.batteryPacks,
      validateFK (some p.cellModelId) (s.cellModels.map CellModel.id) = true) ∧
    (∀ r ∈ s.carBatteryPacks,
      validateFK r.carId (s.cars.map Car.id) = true ∧
      validateFK r.batteryPackId (s.batteryPacks.map BatteryPack.id) = true) := by
  simp [refInt, List.all_eq_true, Bool.and_eq_true]

theorem refInt_cmCreate (s : Store) (d : CellModelInput) (h : refInt s = true) :
    refInt (cellModels.create s d).2 = true := by
  rw [refInt_iff] at h ⊢
  obtain ⟨h1, h2⟩ := h
  constructor
  · intro p hp
    have hp' : p ∈ s.batteryPacks := hp
    refine validateFK_mono ?_ (h1 p hp')
    intro i hi
    show i ∈ (s.cellModels ++ [cellModels.newRecord s d]).map CellModel.id
    rw [List.map_append]
    exact List.mem_append_left _ hi
  · intro r hr
    exact h2 r hr

theorem refInt_carCreate (s : Store) (d : CarInput) (h : refInt s = true) :
    refInt (cars.create s d).2 = true := by
  rw [refInt_iff] at h ⊢
  obtain ⟨h1, h2⟩ := h
  constructor
  · intro p hp
    exact h1 p hp
  · intro r hr
    have hr' : r ∈ s.carBatteryPacks := hr
    obtain ⟨hcar, hbp⟩ := h2 r hr'
    refine ⟨validateFK_mono ?_ hcar, hbp⟩
    intro i hi
    show i ∈ (s.cars ++ [cars.newRecord s d]).map Car.id
    rw [List.map_append]
    exact List.mem_append_left _ hi

theorem refInt_bpCreate (s : Store) (d : BatteryPackInput) (h : refInt s = true) :
    refInt (batteryPacks.create s d).2 = true := by
  rcases bpCreate_cases s d with ⟨e, heq⟩ | ⟨hval, heq⟩
  · rw [heq]
    exact h
  · rw [heq]
    rw [refInt_iff] at h ⊢
    obtain ⟨h1, h2⟩ := h
    constructor
    · intro p hp
      have hp0 : p ∈ s.batteryPacks ++ [batteryPacks.newRecord s d] := hp
      rcases List.mem_append.mp hp0 with hp1 | hp2
      · exact h1 p hp1
      · have hpn : p = batteryPacks.newRecord s d := by simpa using hp2
        subst hpn
        exact validateFK_jsOr hval
    · intro r hr
      have hr' : r ∈ s.carBatteryPacks := hr
      obtain ⟨hcar, hbp⟩ := h2 r hr'
      refine ⟨hcar, validateFK_mono ?_ hbp⟩
      intro i hi
      show i ∈ (s.batteryPacks ++ [batteryPacks.newRecord s d]).map BatteryPack.id
      rw [List.map_append]
      exact List.mem_append_left _ hi

theorem refInt_cbpCreate (s : Store) (d : CarBatteryPackInput) (h : refInt s = true) :
    refInt (carBatteryPacks.create s d).2 = true := by
  rcases cbpCreate_cases s d with ⟨e, heq⟩ | ⟨hv1, hv2, heq⟩
  · rw [heq]
    exact h
  · rw [heq]
    rw [refInt_iff] at h ⊢
    obtain ⟨h1, h2⟩ := h
    constructor
    · intro p hp
      exact h1 p hp
    · intro r hr
      have hr0 : r ∈ s.carBatteryPacks ++ [carBatteryPacks.newRecord s d] := hr
      rcases List.mem_append.mp hr0 with hr1 | hr2
      · exact h2 r hr1
      · have hrn : r = carBatteryPacks.newRecord s d := by simpa using hr2
        subst hrn
        exact ⟨hv1, hv2⟩

theorem refInt_cmUpdate (s : Store) (id : Nat) (d : CellModelInput) (h : refInt s = true) :
    refInt (cellModels.update s id d).2 = true := by
  rcases cmUpdate_cases s id d with heq | ⟨l₁, item, l₂, hdec, h₁, h₂, heq⟩
  · rw [heq]
    exact h
  · rw [heq]
    rw [refInt_iff] at h ⊢
    obtain ⟨hA, hB⟩ := h
    have hids : (l₁ ++ cellModels.merge item d :: l₂).map CellModel.id =
        s.cellModels.map CellModel.id := by
      rw [hdec]
      simp [cellModels.merge]
    constructor
    · intro p hp
      have hp' : p ∈ s.batteryPacks := hp
      show validateFK (some p.cellModelId)
        ((l₁ ++ cellModels.merge item d :: l₂).map CellModel.id) = true
      rw [hids]
      exact hA p hp'
    · intro r hr
      exact hB r hr

theorem refInt_carUpdate (s : Store) (id : Nat) (d : CarInput) (h : refInt s = true) :
    refInt (cars.update s id d).2 = true := by
  rcases carUpdate_cases s id d with heq | ⟨l₁, item, l₂, hdec, h₁, h₂, heq⟩
  · rw [heq]
    exact h
  · rw [heq]
    rw [refInt_iff] at h ⊢
    obtain ⟨hA, hB⟩ := h
    have hids : (l₁ ++ cars.merge item d :: l₂).map Car.id = s.cars.map Car.id := by
      rw [hdec]
      simp [cars.merge]
    constructor
    · intro p hp
      exact hA p hp
    · intro r hr
      have hr' : r ∈ s.carBatteryPacks := hr
      obtain ⟨hcar, hbp⟩ := hB r hr'
      refine ⟨?_, hbp⟩
      show validateFK r.carId ((l₁ ++ cars.merge item d :: l₂).map Car.id) = true
      rw [hids]
      exact hcar

theorem refInt_bpUpdate (s : Store) (id : Nat) (d : BatteryPackInput) (h : refInt s = true) :
    refInt (batteryPacks.update s id d).2 = true := by
  rcases bpUpdate_cases s id d with ⟨e, heq⟩ | ⟨l₁, item, l₂, hdec, h₁, h₂, himp, heq⟩
  · rw [heq]
    exact h
  · rw [heq]
    rw [refInt_iff] at h ⊢
    obtain ⟨hA, hB⟩ := h
    have hitem : item ∈ s.batteryPacks := by
      rw [hdec]
      exact List.mem_append_right _ (List.mem_cons_self item l₂)
    have hids : (l₁ ++ batteryPacks.merge item d :: l₂).map BatteryPack.id =
        s.batteryPacks.map BatteryPack.id := by
      rw [hdec]
      simp [batteryPacks.merge]
    constructor
    · intro p hp
      have hp0 : p ∈ l₁ ++ batteryPacks.merge item d :: l₂ := hp
      have hmerge : validateFK (some (batteryPacks.merge item d).cellModelId)
          (s.cellModels.map CellModel.id) = true := by
        show validateFK (some (d.cellModelId.getD item.cellModelId))
          (s.cellModels.map CellModel.id) = true
        cases hd : d.cellModelId with
        | none => simpa using hA item hitem
        | some v =>
            have := himp (by rw [hd]; rfl)
            rw [hd] at this
            simpa using this
      rcases List.mem_append.mp hp0 with hp1 | hp2
      · exact hA p (by rw [hdec]; exact List.mem_append_left _ hp1)
      · rcases List.mem_cons.mp hp2 with rfl | hp3
        · exact hmerge
        · exact hA p (by rw [hdec]; exact List.mem_append_right _ (List.mem_cons_of_mem _ hp3))
    · intro r hr
      have hr' : r ∈ s.carBatteryPacks := hr
      obtain ⟨hcar, hbp⟩ := hB r hr'
      refine ⟨hcar, ?_⟩
      show validateFK r.batteryPackId
        ((l₁ ++ batteryPacks.merge item d :: l₂).map BatteryPack.id) = true
      rw [hids]
      exact hbp

theorem refInt_cbpUpdate (s : Store) (id : Nat) (d : CarBatteryPackInput)
    (h : refInt s = true) : refInt (carBatteryPacks.update s id d).2 = true := by
  rcases cbpUpdate_cases s id d with ⟨e, heq⟩ | ⟨l₁, item, l₂, hdec, h₁, h₂, himp1, himp2, heq⟩
  · rw [heq]
    exact h
  · rw [heq]
    rw [refInt_iff] at h ⊢
    obtain ⟨hA, hB⟩ := h
    have hitem : item ∈ s.carBatteryPacks := by
      rw [hdec]
      exact List.mem_append_right _ (List.mem_cons_self item l₂)
    constructor
    · intro p hp
      exact hA p hp
    · intro r hr
      have hr0 : r ∈ l₁ ++ carBatteryPacks.merge item d :: l₂ := hr
      have hmerge : validateFK (carBatteryPacks.merge item d).carId (s.cars.map Car.id) = true ∧
          validateFK (carBatteryPacks.merge item d).batteryPackId
            (s.batteryPacks.map BatteryPack.id) = true := by
        obtain ⟨hic, hib⟩ := hB item hitem
        constructor
        · show validateFK (if d.carId.isSome then d.carId else item.carId)
            (s.cars.map Car.id) = true
          cases hd : d.carId.isSome with
          | true => simpa [hd] using himp1 hd
          | false => simpa [hd] using hic
        · show validateFK (if d.batteryPackId.isSome then d.batteryPackId else item.batteryPackId)
            (s.batteryPacks.map BatteryPack.id) = true
          cases hd : d.batteryPackId.isSome with
          | true => simpa [hd] using himp2 hd
          | false => simpa [hd] using hib
      rcases List.mem_append.mp hr0 with hr1 | hr2
      · exact hB r (by rw [hdec]; exact List.mem_append_left _ hr1)
      · rcases List.mem_cons.mp hr2 with rfl | hr3
        · exact hmerge
        · exact hB r (by rw [hdec]; exact List.mem_append_right _ (List.mem_cons_of_mem _ hr3))

theorem refInt_cmRemove (s : Store) (id : Nat) (h : refInt s = true) :
    refInt (cellModels.remove s id).2 = true := by
  rcases cmRemove_cases s id with ⟨e, heq⟩ | ⟨hg, heq⟩
  · rw [heq]
    exact h
  · rw [heq]
    rw [refInt_iff] at h ⊢
    obtain ⟨hA, hB⟩ := h
    rw [List.any_eq_false] at hg
    constructor
    · intro p hp
      have hp' : p ∈ s.batteryPacks := hp
      refine validateFK_filter CellModel.id s.cellModels id _ (hA p hp') ?_
      have := hg p hp'
      simp only [beq_iff_eq] at this
      intro hcon
      apply this
      injection hcon
    · intro r hr
      exact hB r hr

theorem refInt_bpRemove (s : Store) (id : Nat) (h : refInt s = true) :
    refInt (batteryPacks.remove s id).2 = true := by
  rcases bpRemove_cases s id with ⟨e, heq⟩ | ⟨hg, heq⟩
  · rw [heq]
    exact h
  · rw [heq]
    rw [refInt_iff] at h ⊢
    obtain ⟨hA, hB⟩ := h
    rw [List.any_eq_false] at hg
    constructor
    · intro p hp
      have hp' : p ∈ s.batteryPacks := List.mem_of_mem_filter hp
      exact hA p hp'
    · intro r hr
      have hr' : r ∈ s.carBatteryPacks := hr
      obtain ⟨hcar, hbp⟩ := hB r hr'
      refine ⟨hcar, ?_⟩
      refine validateFK_filter BatteryPack.id s.batteryPacks id _ hbp ?_
      have := hg r hr'
      simpa only [beq_iff_eq] using this
    
theorem refInt_carRemove (s : Store) (id : Nat) (h : refInt s = true) :
    refInt (cars.remove s id).2 = true := by
  rcases carRemove_cases s id with ⟨e, heq⟩ | ⟨hg, heq⟩
  · rw [heq]
    exact h
  · rw [heq]
    rw [refInt_iff] at h ⊢
    obtain ⟨hA, hB⟩ := h
    rw [List.any_eq_false] at hg
    constructor
    · intro p hp
      exact hA p hp
    · intro r hr
      have hr' : r ∈ s.carBatteryPacks := hr
      obtain ⟨hcar, hbp⟩ := hB r hr'
      refine ⟨?_, hbp⟩
      refine validateFK_filter Car.id s.cars id _ hcar ?_
      have := hg r hr'
      simpa only [beq_iff_eq] using this

theorem refInt_cbpRemove (s : Store) (id : Nat) (h : refInt s = true) :
    refInt (carBatteryPacks.remove s id).2 = true := by
  rcases cbpRemove_cases s id with ⟨e, heq⟩ | heq
  · rw [heq]
    exact h
  · rw [heq]
    rw [refInt_iff] at h ⊢
    obtain ⟨hA, hB⟩ := h
    constructor
    · intro p hp
      exact hA p hp
    · intro r hr
      exact hB r (List.mem_of_mem_filter hr)

/-- Every operation preserves referential integrity. -/
theorem refInt_applyOp (s : Store) (op : Op) (h : refInt s = true) :
    refInt (applyOp s op).2 = true := by
  cases op with
  | cmCreate d => exact refInt_cmCreate s d h
  | cmUpdate id d => exact refInt_cmUpdate s id d h
  | cmRemove id => exact refInt_cmRemove s id h
  | bpCreate d => exact refInt_bpCreate s d h
  | bpUpdate id d => exact refInt_bpUpdate s id d h
  | bpRemove id => exact refInt_bpRemove s id h
  | carCreate d => exact refInt_carCreate s d h
  | carUpdate id d => exact refInt_carUpdate s id d h
  | carRemove id => exact refInt_carRemove s id h
  | cbpCreate d => exact refInt_cbpCreate s d h
  | cbpUpdate id d => exact refInt_cbpUpdate s id d h
  | cbpRemove id => exact refInt_cbpRemove s id h

theorem refInt_runOps (s : Store) (ops : List Op) (h : refInt s = true) :
    refInt (runOps s ops) = true := by
  induction ops generalizing s with
  | nil => exact h
  | cons op rest ih => exact ih (applyOp s op).2 (refInt_applyOp s op h)

/-! Preservation of identifier uniqueness by every operation. -/

theorem nodup_append_getNextId (l : List Nat) (h : l.Nodup) : (l ++ [getNextId l]).Nodup := by
  rw [List.nodup_append]
  refine ⟨h, List.nodup_singleton _, ?_⟩
  intro i hi hmem
  have hin : i = getNextId l := by simpa using hmem
  subst hin
  exact absurd (id_lt_getNextId l _ hi) (lt_irrefl _)

theorem nodup_map_filter {α : Type} (gid : α → Nat) (p : α → Bool) (l : List α)
    (h : (l.map gid).Nodup) : ((l.filter p).map gid).Nodup :=
  List.Nodup.sublist (List.Sublist.map gid (List.filter_sublist l)) h

theorem idsNodup_applyOp (s : Store) (op : Op) (h : idsNodup s) :
    idsNodup (applyOp s op).2 := by
  obtain ⟨n1, n2, n3, n4⟩ := h
  cases op with
  | cmCreate d =>
      refine ⟨?_, n2, n3, n4⟩
      show ((s.cellModels ++ [cellModels.newRecord s d]).map CellModel.id).Nodup
      rw [List.map_append]
      exact nodup_append_getNextId _ n1
  | cmUpdate id d =>
      rcases cmUpdate_cases s id d with heq | ⟨l₁, item, l₂, hdec, h₁, h₂, heq⟩
      · show idsNodup (cellModels.update s id d).2
        rw [heq]
        exact ⟨n1, n2, n3, n4⟩
      · show idsNodup (cellModels.update s id d).2
        rw [heq]
        refine ⟨?_, n2, n3, n4⟩
        show ((l₁ ++ cellModels.merge item d :: l₂).map CellModel.id).Nodup
        have hids : (l₁ ++ cellModels.merge item d :: l₂).map CellModel.id =
            s.cellModels.map CellModel.id := by
          rw [hdec]
          simp [cellModels.merge]
        rw [hids]
        exact n1
  | cmRemove id =>
      rcases cmRemove_cases s id with ⟨e, heq⟩ | ⟨hg, heq⟩
      · show idsNodup (cellModels.remove s id).2
        rw [heq]
        exact ⟨n1, n2, n3, n4⟩
      · show idsNodup (cellModels.remove s id).2
        rw [heq]
        exact ⟨nodup_map_filter _ _ _ n1, n2, n3, n4⟩
  | bpCreate d =>
      rcases bpCreate_cases s d with ⟨e, heq⟩ | ⟨hval, heq⟩
      · show idsNodup (batteryPacks.create s d).2
        rw [heq]
        exact ⟨n1, n2, n3, n4⟩
      · show idsNodup (batteryPacks.create s d).2
        rw [heq]
        refine ⟨n1, ?_, n3, n4⟩
        show ((s.batteryPacks ++ [batteryPacks.newRecord s d]).map BatteryPack.id).Nodup
        rw [List.map_append]
        exact nodup_append_getNextId _ n2
  | bpUpdate id d =>
      rcases bpUpdate_cases s id d with ⟨e, heq⟩ | ⟨l₁, item, l₂, hdec, h₁, h₂, himp, heq⟩
      · show idsNodup (batteryPacks.update s id d).2
        rw [heq]
        exact ⟨n1, n2, n3, n4⟩
      · show idsNodup (batteryPacks.update s id d).2
        rw [heq]
        refine ⟨n1, ?_, n3, n4⟩
        show ((l₁ ++ batteryPacks.merge item d :: l₂).map BatteryPack.id).Nodup
        have hids : (l₁ ++ batteryPacks.merge item d :: l₂).map BatteryPack.id =
            s.batteryPacks.map BatteryPack.id := by
          rw [hdec]
          simp [batteryPacks.merge]
        rw [hids]
        exact n2
  | bpRemove id =>
      rcases bpRemove_cases s id with ⟨e, heq⟩ | ⟨hg, heq⟩
      · show idsNodup (batteryPacks.remove s id).2
        rw [heq]
        exact ⟨n1, n2, n3, n4⟩
      · show idsNodup (batteryPacks.remove s id).2
        rw [heq]
        exact ⟨n1, nodup_map_filter _ _ _ n2, n3, n4⟩
  | carCreate d =>
      refine ⟨n1, n2, ?_, n4⟩
      show ((s.cars ++ [cars.newRecord s d]).map Car.id).Nodup
      rw [List.map_append]
      exact nodup_append_getNextId _ n3
  | carUpdate id d =>
      rcases carUpdate_cases s id d with heq | ⟨l₁, item, l₂, hdec, h₁, h₂, heq⟩
      · show idsNodup (cars.update s id d).2
        rw [heq]
        exact ⟨n1, n2, n3, n4⟩
      · show idsNodup (cars.update s id d).2
        rw [heq]
        refine ⟨n1, n2, ?_, n4⟩
        show ((l₁ ++ cars.merge item d :: l₂).map Car.id).Nodup
        have hids : (l₁ ++ cars.merge item d :: l₂).map Car.id = s.cars.map Car.id := by
          rw [hdec]
          simp [cars.merge]
        rw [hids]
        exact n3
  | carRemove id =>
      rcases carRemove_cases s id with ⟨e, heq⟩ | ⟨hg, heq⟩
      · show idsNodup (cars.remove s id).2
        rw [heq]
        exact ⟨n1, n2, n3, n4⟩
      · show idsNodup (cars.remove s id).2
        rw [heq]
        exact ⟨n1, n2, nodup_map_filter _ _ _ n3, n4⟩
  | cbpCreate d =>
      rcases cbpCreate_cases s d with ⟨e, heq⟩ | ⟨hv1, hv2, heq⟩
      · show idsNodup (carBatteryPacks.create s d).2
        rw [heq]
        exact ⟨n1, n2, n3, n4⟩
      · show idsNodup (carBatteryPacks.create s d).2
        rw [heq]
        refine ⟨n1, n2, n3, ?_⟩
        show ((s.carBatteryPacks ++ [carBatteryPacks.newRecord s d]).map
          CarBatteryPack.id).Nodup
        rw [List.map_append]
        exact nodup_append_getNextId _ n4
  | cbpUpdate id d =>
      rcases cbpUpdate_cases s id d with ⟨e, heq⟩ |
        ⟨l₁, item, l₂, hdec, h₁, h₂, himp1, himp2, heq⟩
      · show idsNodup (carBatteryPacks.update s id d).2
        rw [heq]
        exact ⟨n1, n2, n3, n4⟩
      · show idsNodup (carBatteryPacks.update s id d).2
        rw [heq]
        refine ⟨n1, n2, n3, ?_⟩
        show ((l₁ ++ carBatteryPacks.merge item d :: l₂).map CarBatteryPack.id).Nodup
        have hids : (l₁ ++ carBatteryPacks.merge item d :: l₂).map CarBatteryPack.id =
            s.carBatteryPacks.map CarBatteryPack.id := by
          rw [hdec]
          simp [carBatteryPacks.merge]
        rw [hids]
        exact n4
  | cbpRemove id =>
      rcases cbpRemove_cases s id with ⟨e, heq⟩ | heq
      · show idsNodup (carBatteryPacks.remove s id).2
        rw [heq]
        exact ⟨n1, n2, n3, n4⟩
      · show idsNodup (carBatteryPacks.remove s id).2
        rw [heq]
        exact ⟨n1, n2, n3, nodup_map_filter _ _ _ n4⟩

theorem idsNodup_runOps (s : Store) (ops : List Op) (h : idsNodup s) :
    idsNodup (runOps s ops) := by
  induction ops generalizing s with
  | nil => exact h
  | cons op rest ih => exact ih (applyOp s op).2 (idsNodup_applyOp s op h)

/-! Helpers for the claim theorems. -/

theorem getNextId_eq_foldl (l : List Nat) : getNextId l = l.foldl max 0 + 1 := by
  cases l with
  | nil => rfl
  | cons x xs => rfl

/-- An input field that is absent or holds a truthy value. -/
def truthyOrAbsent : Option Value → Bool
  | none => true
  | some w => w.truthy

/-- For truthy-or-absent supplied values, `x || d` is plain presence merge. -/
theorem jsOr_truthy (x : Option Value) (d : Value) (h : truthyOrAbsent x = true) :
    jsOr x d = x.getD d := by
  cases x with
  | none => rfl
  | some w =>
      have hw : w.truthy = true := h
      simp [jsOr, hw]

/-- A null or absent input field. -/
def nullOrAbsent : Option Value → Bool
  | none => true
  | some .null => true
  | some _ => false

theorem validateFK_nullOrAbsent (v : Option Value) (ids : List Nat)
    (h : nullOrAbsent v = true) : validateFK v ids = true := by
  cases v with
  | none => rfl
  | some w =>
      cases w with
      | null => rfl
      | num q => exact absurd h (by simp [nullOrAbsent])
      | str t => exact absurd h (by simp [nullOrAbsent])

theorem get_create_cm (s : Store) (d : CellModelInput) :
    cellModels.get (cellModels.create s d).2 ((cellModels.create s d).1).id =
      some (cellModels.create s d).1 := by
  show (s.cellModels ++ [cellModels.newRecord s d]).find?
      (fun item => item.id == (cellModels.newRecord s d).id) = some (cellModels.newRecord s d)
  refine find?_append_fresh _ _ _ ?_ (by simp)
  intro x hx
  have hlt : x.id < getNextId (s.cellModels.map CellModel.id) :=
    id_lt_getNextId _ _ (List.mem_map_of_mem CellModel.id hx)
  simp only [beq_eq_false_iff_ne, ne_eq]
  show ¬x.id = getNextId (s.cellModels.map CellModel.id)
  exact Nat.ne_of_lt hlt

theorem get_create_car (s : Store) (d : CarInput) :
    cars.get (cars.create s d).2 ((cars.create s d).1).id = some (cars.create s d).1 := by
  show (s.cars ++ [cars.newRecord s d]).find?
      (fun item => item.id == (cars.newRecord s d).id) = some (cars.newRecord s d)
  refine find?_append_fresh _ _ _ ?_ (by simp)
  intro x hx
  have hlt : x.id < getNextId (s.cars.map Car.id) :=
    id_lt_getNextId _ _ (List.mem_map_of_mem Car.id hx)
  simp only [beq_eq_false_iff_ne, ne_eq]
  show ¬x.id = getNextId (s.cars.map Car.id)
  exact Nat.ne_of_lt hlt

theorem get_create_bp (s : Store) (d : BatteryPackInput)
    (hval : validateFK d.cellModelId (s.cellModels.map CellModel.id) = true) :
    batteryPacks.create s d =
      (.ok (batteryPacks.newRecord s d),
       { s with batteryPacks := s.batteryPacks ++ [batteryPacks.newRecord s d] }) ∧
    batteryPacks.get (batteryPacks.create s d).2 ((batteryPacks.newRecord s d).id) =
      some (batteryPacks.newRecord s d) := by
  have heq : batteryPacks.create s d =
      (.ok (batteryPacks.newRecord s d),
       { s with batteryPacks := s.batteryPacks ++ [batteryPacks.newRecord s d] }) := by
    simp [batteryPacks.create, hval, batteryPacks.list]
  refine ⟨heq, ?_⟩
  rw [heq]
  show (s.batteryPacks ++ [batteryPacks.newRecord s d]).find?
      (fun item => item.id == (batteryPacks.newRecord s d).id) =
    some (batteryPacks.newRecord s d)
  refine find?_append_fresh _ _ _ ?_ (by simp)
  intro x hx
  have hlt : x.id < getNextId (s.batteryPacks.map BatteryPack.id) :=
    id_lt_getNextId _ _ (List.mem_map_of_mem BatteryPack.id hx)
  simp only [beq_eq_false_iff_ne, ne_eq]
  show ¬x.id = getNextId (s.batteryPacks.map BatteryPack.id)
  exact Nat.ne_of_lt hlt

theorem get_create_cbp (s : Store) (d : CarBatteryPackInput)
    (hv1 : validateFK d.carId (s.cars.map Car.id) = true)
    (hv2 : validateFK d.batteryPackId (s.batteryPacks.map BatteryPack.id) = true) :
    carBatteryPacks.create s d =
      (.ok (carBatteryPacks.newRecord s d),
       { s with carBatteryPacks := s.carBatteryPacks ++ [carBatteryPacks.newRecord s d] }) ∧
    carBatteryPacks.get (carBatteryPacks.create s d).2 ((carBatteryPacks.newRecord s d).id) =
      some (carBatteryPacks.newRecord s d) := by
  have heq : carBatteryPacks.create s d =
      (.ok (carBatteryPacks.newRecord s d),
       { s with carBatteryPacks := s.carBatteryPacks ++ [carBatteryPacks.newRecord s d] }) := by
    simp [carBatteryPacks.create, hv1, hv2, carBatteryPacks.list]
  refine ⟨heq, ?_⟩
  rw [heq]
  show (s.carBatteryPacks ++ [carBatteryPacks.newRecord s d]).find?
      (fun item => item.id == (carBatteryPacks.newRecord s d).id) =
    some (carBatteryPacks.newRecord s d)
  refine find?_append_fresh _ _ _ ?_ (by simp)
  intro x hx
  have hlt : x.id < getNextId (s.carBatteryPacks.map CarBatteryPack.id) :=
    id_lt_getNextId _ _ (List.mem_map_of_mem CarBatteryPack.id hx)
  simp only [beq_eq_false_iff_ne, ne_eq]
  show ¬x.id = getNextId (s.carBatteryPacks.map CarBatteryPack.id)
  exact Nat.ne_of_lt hlt

/-! Claim C1. -/

/-- C1, counterexample: `cellModels.create` with the supplied falsy value
`nominalVoltage = 0` stores `null`, not `0`, so the record retrieved by `get`
is not the merge of the declared defaults with the supplied fields: the code
substitutes the default for every falsy supplied value (`data.field || default`). -/
theorem c1_counterexample :
    ((cellModels.create emptyStore ⟨none, none, none, some (Value.num 0), none⟩).1).nominalVoltage
        = Value.null ∧
    cellModels.get (cellModels.create emptyStore ⟨none, none, none, some (Value.num 0), none⟩).2 1
        = some ⟨1, .str "", .str "", .str "", .null, .null⟩ ∧
    Value.null ≠ Value.num 0 := by
  decide

/-- C1 (amended): for every table and input whose supplied values are truthy
(and whose supplied foreign keys resolve), `create` succeeds and a subsequent
`get` on the returned id yields exactly the returned record, which is the
merge of the declared per-field defaults with the supplied fields (text fields
default to the empty string except `Car.trim`, which defaults to `null`;
numeric and foreign-key fields default to `null`; `carBatteryPacks` applies no
defaults and stores its two foreign-key fields verbatim).  A falsy supplied
value (such as `0`, `""`, or `null`) is replaced by the field's default, as
the counterexample shows. -/
theorem c1_create_get_merge :
    (∀ (s : Store) (d : CellModelInput),
      truthyOrAbsent d.manufacturer = true → truthyOrAbsent d.model = true →
      truthyOrAbsent d.chemistry = true → truthyOrAbsent d.nominalVoltage = true →
      truthyOrAbsent d.nominalCapacityMah = true →
      cellModels.get (cellModels.create s d).2 ((cellModels.create s d).1).id =
          some (cellModels.create s d).1 ∧
      (cellModels.create s d).1 =
        { id := getNextId (s.cellModels.map CellModel.id)
          manufacturer := d.manufacturer.getD (.str "")
          model := d.model.getD (.str "")
          chemistry := d.chemistry.getD (.str "")
          nominalVoltage := d.nominalVoltage.getD .null
          nominalCapacityMah := d.nominalCapacityMah.getD .null }) ∧
    (∀ (s : Store) (d : CarInput),
      truthyOrAbsent d.brand = true → truthyOrAbsent d.model = true →
      truthyOrAbsent d.trim = true → truthyOrAbsent d.yearStart = true →
      truthyOrAbsent d.yearEnd = true →
      cars.get (cars.create s d).2 ((cars.create s d).1).id = some (cars.create s d).1 ∧
      (cars.create s d).1 =
        { id := getNextId (s.cars.map Car.id)
          brand := d.brand.getD (.str "")
          model := d.model.getD (.str "")
          trim := d.trim.getD .null
          yearStart := d.yearStart.getD .null
          yearEnd := d.yearEnd.getD .null }) ∧
    (∀ (s : Store) (d : BatteryPackInput),
      validateFK d.cellModelId (s.cellModels.map CellModel.id) = true →
      truthyOrAbsent d.name = true → truthyOrAbsent d.totalCapacityKwh = true →
      truthyOrAbsent d.seriesCount = true → truthyOrAbsent d.parallelCount = true →
      truthyOrAbsent d.cellCount = true → truthyOrAbsent d.cellModelId = true →
      (batteryPacks.create s d).1 = .ok (batteryPacks.newRecord s d) ∧
      batteryPacks.newRecord s d =
        { id := getNextId (s.batteryPacks.map BatteryPack.id)
          name := d.name.getD (.str "")
          totalCapacityKwh := d.totalCapacityKwh.getD .null
          seriesCount := d.seriesCount.getD .null
          parallelCount := d.parallelCount.getD .null
          cellCount := d.cellCount.getD .null
          cellModelId := d.cellModelId.getD .null } ∧
      batteryPacks.get (batteryPacks.create s d).2 ((batteryPacks.newRecord s d).id) =
        some (batteryPacks.newRecord s d)) ∧
    (∀ (s : Store) (d : CarBatteryPackInput),
      validateFK d.carId (s.cars.map Car.id) = true →
      validateFK d.batteryPackId (s.batteryPacks.map BatteryPack.id) = true →
      (carBatteryPacks.create s d).1 = .ok (carBatteryPacks.newRecord s d) ∧
      carBatteryPacks.newRecord s d =
        { id := getNextId (s.carBatteryPacks.map CarBatteryPack.id)
          carId := d.carId
          batteryPackId := d.batteryPackId } ∧
      carBatteryPacks.get (carBatteryPacks.create s d).2 ((carBatteryPacks.newRecord s d).id) =
        some (carBatteryPacks.newRecord s d)) := by
  refine ⟨?_, ?_, ?_, ?_⟩
  · intro s d h1 h2 h3 h4 h5
    refine ⟨get_create_cm s d, ?_⟩
    show cellModels.newRecord s d = _
    simp only [cellModels.newRecord, cellModels.list, jsOr_truthy _ _ h1, jsOr_truthy _ _ h2,
      jsOr_truthy _ _ h3, jsOr_truthy _ _ h4, jsOr_truthy _ _ h5]
  · intro s d h1 h2 h3 h4 h5
    refine ⟨get_create_car s d, ?_⟩
    show cars.newRecord s d = _
    simp only [cars.newRecord, cars.list, jsOr_truthy _ _ h1, jsOr_truthy _ _ h2,
      jsOr_truthy _ _ h3, jsOr_truthy _ _ h4, jsOr_truthy _ _ h5]
  · intro s d hval h1 h2 h3 h4 h5 h6
    obtain ⟨heq, hget⟩ := get_create_bp s d hval
    refine ⟨by rw [heq], ?_, hget⟩
    simp only [batteryPacks.newRecord, batteryPacks.list, jsOr_truthy _ _ h1,
      jsOr_truthy _ _ h2, jsOr_truthy _ _ h3, jsOr_truthy _ _ h4, jsOr_truthy _ _ h5,
      jsOr_truthy _ _ h6]
  · intro s d hv1 hv2
    obtain ⟨heq, hget⟩ := get_create_cbp s d hv1 hv2
    exact ⟨by rw [heq], rfl, hget⟩

/-- C1, witness: a concrete truthy creation on the empty store. -/
theorem c1_witness :
    cellModels.get (cellModels.create emptyStore
        ⟨some (.str "A"), none, none, some (.num 5), none⟩).2
      ((cellModels.create emptyStore ⟨some (.str "A"), none, none, some (.num 5), none⟩).1).id =
        some (cellModels.create emptyStore
          ⟨some (.str "A"), none, none, some (.num 5), none⟩).1 ∧
    (cellModels.create emptyStore ⟨some (.str "A"), none, none, some (.num 5), none⟩).1 =
      { id := getNextId (emptyStore.cellModels.map CellModel.id)
        manufacturer := (some (Value.str "A")).getD (.str "")
        model := (none : Option Value).getD (.str "")
        chemistry := (none : Option Value).getD (.str "")
        nominalVoltage := (some (Value.num 5)).getD .null
        nominalCapacityMah := (none : Option Value).getD .null } :=
  c1_create_get_merge.1 emptyStore ⟨some (.str "A"), none, none, some (.num 5), none⟩
    (by decide) (by decide) (by decide) (by decide) (by decide)

/-! Claim C2. -/

/-- C2: `batteryPacks.create` with a supplied `cellModelId = X` fails with the
ValidationError-class failure for every supplied value X that is not among the
ids of `cellModels.list()`, and succeeds when X is null, storing
`cellModelId = null`.  (An explicitly supplied `undefined` is the absent field
`none`, which also succeeds.) -/
theorem c2_fk_guard (s : Store) (X : Value) :
    (X ≠ Value.null → (∀ c ∈ s.cellModels, Value.num (c.id : ℚ) ≠ X) →
      batteryPacks.create s ⟨none, none, none, none, none, some X⟩ =
        (.error (.validation "Invalid cellModelId: cell model does not exist"), s)) ∧
    ((batteryPacks.create s ⟨none, none, none, none, none, some Value.null⟩).1 =
        .ok (batteryPacks.newRecord s ⟨none, none, none, none, none, some Value.null⟩) ∧
      (batteryPacks.newRecord s
          ⟨none, none, none, none, none, some Value.null⟩).cellModelId = Value.null ∧
      (batteryPacks.create s ⟨none, none, none, none, none, some Value.null⟩).2.batteryPacks =
        s.batteryPacks ++
          [batteryPacks.newRecord s ⟨none, none, none, none, none, some Value.null⟩]) := by
  constructor
  · intro hX hall
    have hfalse : validateFK (some X) (s.cellModels.map CellModel.id) = false := by
      rw [validateFK_some_eq _ _ hX, List.any_eq_false]
      intro i hi
      obtain ⟨c, hc, rfl⟩ := List.mem_map.mp hi
      simpa using hall c hc
    simp [batteryPacks.create, hfalse]
  · exact ⟨rfl, rfl, rfl⟩

/-- C2, witness: on a store holding the single cell model id 1, a supplied
`cellModelId = 5` is rejected. -/
theorem c2_witness :
    batteryPacks.create (cellModels.create emptyStore ⟨none, none, none, none, none⟩).2
        ⟨none, none, none, none, none, some (Value.num 5)⟩ =
      (.error (.validation "Invalid cellModelId: cell model does not exist"),
       (cellModels.create emptyStore ⟨none, none, none, none, none⟩).2) :=
  (c2_fk_guard (cellModels.create emptyStore ⟨none, none, none, none, none⟩).2
    (Value.num 5)).1 (by decide) (by decide)

/-! Claim C3. -/

/-- C3: while some battery pack references the cell model id, `remove` fails
with the ConflictError-class failure and leaves every table unchanged; once no
battery pack references the id (and the cell model exists), `remove` succeeds,
returns the success flag, and drops exactly the records with that id. -/
theorem c3_delete_guard (s : Store) (id : Nat) :
    ((∃ p ∈ s.batteryPacks, p.cellModelId = Value.num (id : ℚ)) →
      cellModels.remove s id =
        (.error (.conflict "Cannot delete cell model: it is referenced by battery packs"), s)) ∧
    ((∀ p ∈ s.batteryPacks, p.cellModelId ≠ Value.num (id : ℚ)) →
      (∃ c ∈ s.cellModels, c.id = id) →
      (cellModels.remove s id).1 = .ok true ∧
      (cellModels.remove s id).2 =
        { s with cellModels := s.cellModels.filter (fun item => item.id != id) }) := by
  constructor
  · rintro ⟨p, hp, hpid⟩
    have hg : s.batteryPacks.any (fun pack => pack.cellModelId == Value.num (id : ℚ)) = true := by
      rw [List.any_eq_true]
      exact ⟨p, hp, by simp [hpid]⟩
    simp [cellModels.remove, hg]
  · rintro hall ⟨c, hc, hcid⟩
    have hg : s.batteryPacks.any (fun pack => pack.cellModelId == Value.num (id : ℚ)) = false := by
      rw [List.any_eq_false]
      intro p hp
      simpa using hall p hp
    have hlen : ((s.cellModels.filter (fun item => item.id != id)).length ==
        s.cellModels.length) = false := by
      rw [beq_eq_false_iff_ne]
      exact length_filter_ne _ _ c hc (by simp [hcid])
    constructor
    · simp [cellModels.remove, hg, cellModels.list, hlen]
    · simp [cellModels.remove, hg, cellModels.list, hlen]

/-- C3, witness: with cell model 1 referenced by a battery pack the removal is
rejected; on the store without the referencing pack it succeeds. -/
theorem c3_witness :
    cellModels.remove (batteryPacks.create (cellModels.create emptyStore
        ⟨none, none, none, none, none⟩).2
        ⟨none, none, none, none, none, some (Value.num 1)⟩).2 1 =
      (.error (.conflict "Cannot delete cell model: it is referenced by battery packs"),
       (batteryPacks.create (cellModels.create emptyStore ⟨none, none, none, none, none⟩).2
        ⟨none, none, none, none, none, some (Value.num 1)⟩).2) ∧
    ((cellModels.remove (cellModels.create emptyStore ⟨none, none, none, none, none⟩).2 1).1 =
        .ok true ∧
      (cellModels.remove (cellModels.create emptyStore ⟨none, none, none, none, none⟩).2 1).2 =
        { (cellModels.create emptyStore ⟨none, none, none, none, none⟩).2 with
          cellModels := ((cellModels.create emptyStore
            ⟨none, none, none, none, none⟩).2).cellModels.filter
              (fun item => item.id != 1) }) :=
  ⟨(c3_delete_guard (batteryPacks.create (cellModels.create emptyStore
      ⟨none, none, none, none, none⟩).2
      ⟨none, none, none, none, none, some (Value.num 1)⟩).2 1).1 (by decide),
   (c3_delete_guard (cellModels.create emptyStore ⟨none, none, none, none, none⟩).2 1).2
      (by decide) (by decide)⟩

/-! Claim C4. -/

set_option maxRecDepth 100000 in
/-- C4: referential integrity is an invariant of every reachable state — from
the empty or the seeded store, after any sequence of create/update/remove
operations on any table, every non-null foreign-key field references an
existing record in its target table (`refInt`). -/
theorem c4_referential_integrity (s0 : Store)
    (h : s0 = emptyStore ∨ s0 = seededStore) (ops : List Op) :
    refInt (runOps s0 ops) = true := by
  have hbase : refInt s0 = true := by
    rcases h with rfl | rfl
    · rfl
    · decide
  exact refInt_runOps s0 ops hbase

/-- C4, witness: a concrete run from the empty store. -/
theorem c4_witness :
    refInt (runOps emptyStore
      [Op.cmCreate ⟨none, none, none, none, none⟩,
       Op.bpCreate ⟨none, none, none, none, none, some (Value.num 1)⟩,
       Op.cmRemove 1]) = true :=
  c4_referential_integrity emptyStore (Or.inl rfl)
    [Op.cmCreate ⟨none, none, none, none, none⟩,
     Op.bpCreate ⟨none, none, none, none, none, some (Value.num 1)⟩,
     Op.cmRemove 1]

/-! Claim C5. -/

/-- C5, counterexample: from the empty store, create two cell models (ids 1
and 2), remove id 2; the table still holds one record, yet the next create
assigns id 2 again — a deleted id is reassigned although the table never
became empty. -/
theorem c5_counterexample :
    ((cellModels.create (cellModels.create emptyStore
        ⟨none, none, none, none, none⟩).2 ⟨none, none, none, none, none⟩).1.id = 2) ∧
    ((cellModels.remove (cellModels.create (cellModels.create emptyStore
        ⟨none, none, none, none, none⟩).2 ⟨none, none, none, none, none⟩).2
        2).2.cellModels.length = 1) ∧
    ((cellModels.create (cellModels.remove (cellModels.create (cellModels.create emptyStore
        ⟨none, none, none, none, none⟩).2 ⟨none, none, none, none, none⟩).2 2).2
        ⟨none, none, none, none, none⟩).1.id = 2) := by
  decide

set_option maxRecDepth 100000 in
/-- C5 (amended): every table's `create` assigns the identifier
`max(existing ids ∪ {0}) + 1` (so `1` on an empty table), and identifiers are
unique within a table in every reachable state; but a deleted id is assigned
again whenever it equals the new maximum plus one — deleting the
highest-numbered record and creating again reuses its id even though the
table is not empty (see the counterexample), so reuse is not restricted to
the empty table. -/
theorem c5_next_id_unique :
    (∀ (s : Store) (d : CellModelInput),
      ((cellModels.create s d).1).id = (s.cellModels.map CellModel.id).foldl max 0 + 1) ∧
    (∀ (s : Store) (d : CarInput),
      ((cars.create s d).1).id = (s.cars.map Car.id).foldl max 0 + 1) ∧
    (∀ (s : Store) (d : BatteryPackInput) (r : BatteryPack) (s2 : Store),
      batteryPacks.create s d = (.ok r, s2) →
      r.id = (s.batteryPacks.map BatteryPack.id).foldl max 0 + 1) ∧
    (∀ (s : Store) (d : CarBatteryPackInput) (r : CarBatteryPack) (s2 : Store),
      carBatteryPacks.create s d = (.ok r, s2) →
      r.id = (s.carBatteryPacks.map CarBatteryPack.id).foldl max 0 + 1) ∧
    (∀ (s0 : Store), s0 = emptyStore ∨ s0 = seededStore →
      ∀ ops : List Op, idsNodup (runOps s0 ops)) := by
  refine ⟨?_, ?_, ?_, ?_, ?_⟩
  · intro s d
    exact getNextId_eq_foldl _
  · intro s d
    exact getNextId_eq_foldl _
  · intro s d r s2 h
    rcases bpCreate_cases s d with ⟨e, heq⟩ | ⟨hval, heq⟩
    · rw [heq] at h
      cases h
    · rw [heq] at h
      injection h with h1 h2
      injection h1 with h1
      rw [← h1]
      exact getNextId_eq_foldl _
  · intro s d r s2 h
    rcases cbpCreate_cases s d with ⟨e, heq⟩ | ⟨hv1, hv2, heq⟩
    · rw [heq] at h
      cases h
    · rw [heq] at h
      injection h with h1 h2
      injection h1 with h1
      rw [← h1]
      exact getNextId_eq_foldl _
  · intro s0 h ops
    have hbase : idsNodup s0 := by
      rcases h with rfl | rfl
      · exact ⟨List.nodup_nil, List.nodup_nil, List.nodup_nil, List.nodup_nil⟩
      · decide
    exact idsNodup_runOps s0 ops hbase

/-- C5, witness: concrete instances of the id formula and the uniqueness
invariant. -/
theorem c5_witness :
    ((cellModels.create (cellModels.create emptyStore
        ⟨none, none, none, none, none⟩).2 ⟨none, none, none, none, none⟩).1).id =
      (((cellModels.create emptyStore
        ⟨none, none, none, none, none⟩).2).cellModels.map CellModel.id).foldl max 0 + 1 ∧
    idsNodup (runOps emptyStore [Op.cmCreate ⟨none, none, none, none, none⟩,
      Op.cmCreate ⟨none, none, none, none, none⟩]) :=
  ⟨c5_next_id_unique.1 (cellModels.create emptyStore ⟨none, none, none, none, none⟩).2
      ⟨none, none, none, none, none⟩,
   c5_next_id_unique.2.2.2.2 emptyStore (Or.inl rfl)
      [Op.cmCreate ⟨none, none, none, none, none⟩, Op.cmCreate ⟨none, none, none, none, none⟩]⟩

/-! Claim C6. -/

/-- C6: a partial `update(id, data)` that succeeds changes only the supplied
fields of the first record whose identifier is `id`: the record keeps its id
and every unsupplied field, every other record of the table is untouched in
place, and the other three tables are untouched — in particular, a
single-field input changes only that field. -/
theorem c6_update_frame :
    (∀ (s : Store) (id : Nat) (d : CellModelInput) (r : CellModel) (s2 : Store),
      cellModels.update s id d = (.ok r, s2) →
      ∃ l₁ item l₂,
        s.cellModels = l₁ ++ item :: l₂ ∧
        s2.cellModels = l₁ ++ r :: l₂ ∧
        s2.batteryPacks = s.batteryPacks ∧ s2.cars = s.cars ∧
        s2.carBatteryPacks = s.carBatteryPacks ∧
        r.id = item.id ∧
        (d.manufacturer = none → r.manufacturer = item.manufacturer) ∧
        (d.model = none → r.model = item.model) ∧
        (d.chemistry = none → r.chemistry = item.chemistry) ∧
        (d.nominalVoltage = none → r.nominalVoltage = item.nominalVoltage) ∧
        (d.nominalCapacityMah = none → r.nominalCapacityMah = item.nominalCapacityMah)) ∧
    (∀ (s : Store) (id : Nat) (d : BatteryPackInput) (r : BatteryPack) (s2 : Store),
      batteryPacks.update s id d = (.ok r, s2) →
      ∃ l₁ item l₂,
        s.batteryPacks = l₁ ++ item :: l₂ ∧
        s2.batteryPacks = l₁ ++ r :: l₂ ∧
        s2.cellModels = s.cellModels ∧ s2.cars = s.cars ∧
        s2.carBatteryPacks = s.carBatteryPacks ∧
        r.id = item.id ∧
        (d.name = none → r.name = item.name) ∧
        (d.totalCapacityKwh = none → r.totalCapacityKwh = item.totalCapacityKwh) ∧
        (d.seriesCount = none → r.seriesCount = item.seriesCount) ∧
        (d.parallelCount = none → r.parallelCount = item.parallelCount) ∧
        (d.cellCount = none → r.cellCount = item.cellCount) ∧
        (d.cellModelId = none → r.cellModelId = item.cellModelId)) ∧
    (∀ (s : Store) (id : Nat) (d : CarInput) (r : Car) (s2 : Store),
      cars.update s id d = (.ok r, s2) →
      ∃ l₁ item l₂,
        s.cars = l₁ ++ item :: l₂ ∧
        s2.cars = l₁ ++ r :: l₂ ∧
        s2.cellModels = s.cellModels ∧ s2.batteryPacks = s.batteryPacks ∧
        s2.carBatteryPacks = s.carBatteryPacks ∧
        r.id = item.id ∧
        (d.brand = none → r.brand = item.brand) ∧
        (d.model = none → r.model = item.model) ∧
        (d.trim = none → r.trim = item.trim) ∧
        (d.yearStart = none → r.yearStart = item.yearStart) ∧
        (d.yearEnd = none → r.yearEnd = item.yearEnd)) ∧
    (∀ (s : Store) (id : Nat) (d : CarBatteryPackInput) (r : CarBatteryPack) (s2 : Store),
      carBatteryPacks.update s id d = (.ok r, s2) →
      ∃ l₁ item l₂,
        s.carBatteryPacks = l₁ ++ item :: l₂ ∧
        s2.carBatteryPacks = l₁ ++ r :: l₂ ∧
        s2.cellModels = s.cellModels ∧ s2.batteryPacks = s.batteryPacks ∧
        s2.cars = s.cars ∧
        r.id = item.id ∧
        (d.carId = none → r.carId = item.carId) ∧
        (d.batteryPackId = none → r.batteryPackId = item.batteryPackId)) := by
  refine ⟨?_, ?_, ?_, ?_⟩
  · intro s id d r s2 h
    rcases cmUpdate_cases s id d with heq | ⟨l₁, item, l₂, hdec, h₁, h₂, heq⟩
    · rw [heq] at h
      injection h with h1 h2
      cases h1
    · rw [heq] at h
      injection h with h1 h2
      injection h1 with h1
      subst h1
      subst h2
      refine ⟨l₁, item, l₂, hdec, rfl, rfl, rfl, rfl, rfl, ?_, ?_, ?_, ?_, ?_⟩ <;>
        (intro hf; simp [cellModels.merge, hf])
  · intro s id d r s2 h
    rcases bpUpdate_cases s id d with ⟨e, heq⟩ | ⟨l₁, item, l₂, hdec, h₁, h₂, himp, heq⟩
    · rw [heq] at h
      injection h with h1 h2
      cases h1
    · rw [heq] at h
      injection h with h1 h2
      injection h1 with h1
      subst h1
      subst h2
      refine ⟨l₁, item, l₂, hdec, rfl, rfl, rfl, rfl, rfl, ?_, ?_, ?_, ?_, ?_, ?_⟩ <;>
        (intro hf; simp [batteryPacks.merge, hf])
  · intro s id d r s2 h
    rcases carUpdate_cases s id d with heq | ⟨l₁, item, l₂, hdec, h₁, h₂, heq⟩
    · rw [heq] at h
      injection h with h1 h2
      cases h1
    · rw [heq] at h
      injection h with h1 h2
      injection h1 with h1
      subst h1
      subst h2
      refine ⟨l₁, item, l₂, hdec, rfl, rfl, rfl, rfl, rfl, ?_, ?_, ?_, ?_, ?_⟩ <;>
        (intro hf; simp [cars.merge, hf])
  · intro s id d r s2 h
    rcases cbpUpdate_cases s id d with ⟨e, heq⟩ |
      ⟨l₁, item, l₂, hdec, h₁, h₂, himp1, himp2, heq⟩
    · rw [heq] at h
      injection h with h1 h2
      cases h1
    · rw [heq] at h
      injection h with h1 h2
      injection h1 with h1
      subst h1
      subst h2
      refine ⟨l₁, item, l₂, hdec, rfl, rfl, rfl, rfl, rfl, ?_, ?_⟩ <;>
        (intro hf; simp [carBatteryPacks.merge, hf])

/-- C6, witness: updating only `model` of the single cell model record. -/
theorem c6_witness :
    ∃ l₁ item l₂,
      ((cellModels.create emptyStore ⟨none, none, none, none, none⟩).2).cellModels =
        l₁ ++ item :: l₂ ∧
      (Store.mk [⟨1, .str "", .str "X", .str "", .null, .null⟩] [] [] []).cellModels =
        l₁ ++ (⟨1, .str "", .str "X", .str "", .null, .null⟩ : CellModel) :: l₂ ∧
      (Store.mk [⟨1, .str "", .str "X", .str "", .null, .null⟩] [] [] []).batteryPacks =
        ((cellModels.create emptyStore ⟨none, none, none, none, none⟩).2).batteryPacks ∧
      (Store.mk [⟨1, .str "", .str "X", .str "", .null, .null⟩] [] [] []).cars =
        ((cellModels.create emptyStore ⟨none, none, none, none, none⟩).2).cars ∧
      (Store.mk [⟨1, .str "", .str "X", .str "", .null, .null⟩] [] [] []).carBatteryPacks =
        ((cellModels.create emptyStore ⟨none, none, none, none, none⟩).2).carBatteryPacks ∧
      (⟨1, .str "", .str "X", .str "", .null, .null⟩ : CellModel).id = item.id ∧
      ((none : Option Value) = none →
        (⟨1, .str "", .str "X", .str "", .null, .null⟩ : CellModel).manufacturer =
          item.manufacturer) ∧
      ((some (Value.str "X") : Option Value) = none →
        (⟨1, .str "", .str "X", .str "", .null, .null⟩ : CellModel).model = item.model) ∧
      ((none : Option Value) = none →
        (⟨1, .str "", .str "X", .str "", .null, .null⟩ : CellModel).chemistry =
          item.chemistry) ∧
      ((none : Option Value) = none →
        (⟨1, .str "", .str "X", .str "", .null, .null⟩ : CellModel).nominalVoltage =
          item.nominalVoltage) ∧
      ((none : Option Value) = none →
        (⟨1, .str "", .str "X", .str "", .null, .null⟩ : CellModel).nominalCapacityMah =
          item.nominalCapacityMah) :=
  c6_update_frame.1 (cellModels.create emptyStore ⟨none, none, none, none, none⟩).2 1
    ⟨none, some (.str "X"), none, none, none⟩
    ⟨1, .str "", .str "X", .str "", .null, .null⟩
    (Store.mk [⟨1, .str "", .str "X", .str "", .null, .null⟩] [] [] []) (by decide)

/-! Claim C7. -/

/-- C7, counterexample: on the empty store no battery pack with id 1 exists,
yet `batteryPacks.update(1, {cellModelId: 99})` fails with the
ValidationError-class failure, not a NotFound-class one — the foreign-key
check precedes the existence check. -/
theorem c7_counterexample :
    emptyStore.batteryPacks.length = 0 ∧
    (batteryPacks.update emptyStore 1 ⟨none, none, none, none, none, some (Value.num 99)⟩).1 =
      .error (.validation "Invalid cellModelId: cell model does not exist") ∧
    (DBError.validation "Invalid cellModelId: cell model does not exist").isNotFound = false := by
  decide

/-- C7 (amended): `update(id, data)` fails with the NotFound-class failure
whenever no record with identifier `id` exists, provided every foreign-key
value supplied in `data` resolves; when a supplied foreign key does not
resolve, the ValidationError takes precedence even though the id does not
exist (see the counterexample). -/
theorem c7_update_notfound :
    (∀ (s : Store) (id : Nat) (d : CellModelInput),
      (∀ c ∈ s.cellModels, c.id ≠ id) →
      cellModels.update s id d = (.error (.notFound "Cell model not found"), s)) ∧
    (∀ (s : Store) (id : Nat) (d : BatteryPackInput),
      validateFK d.cellModelId (s.cellModels.map CellModel.id) = true →
      (∀ p ∈ s.batteryPacks, p.id ≠ id) →
      batteryPacks.update s id d = (.error (.notFound "Battery pack not found"), s)) ∧
    (∀ (s : Store) (id : Nat) (d : CarInput),
      (∀ c ∈ s.cars, c.id ≠ id) →
      cars.update s id d = (.error (.notFound "Car not found"), s)) ∧
    (∀ (s : Store) (id : Nat) (d : CarBatteryPackInput),
      validateFK d.carId (s.cars.map Car.id) = true →
      validateFK d.batteryPackId (s.batteryPacks.map BatteryPack.id) = true →
      (∀ r ∈ s.carBatteryPacks, r.id ≠ id) →
      carBatteryPacks.update s id d = (.error (.notFound "Relation not found"), s)) := by
  refine ⟨?_, ?_, ?_, ?_⟩
  · intro s id d hall
    have hfind : s.cellModels.find? (fun item => item.id == id) = none := by
      rw [List.find?_eq_none]
      intro c hc
      simpa using hall c hc
    simp [cellModels.update, cellModels.list, hfind]
  · intro s id d hval hall
    have hfind : s.batteryPacks.find? (fun item => item.id == id) = none := by
      rw [List.find?_eq_none]
      intro p hp
      simpa using hall p hp
    simp [batteryPacks.update, batteryPacks.list, hval, hfind]
  · intro s id d hall
    have hfind : s.cars.find? (fun item => item.id == id) = none := by
      rw [List.find?_eq_none]
      intro c hc
      simpa using hall c hc
    simp [cars.update, cars.list, hfind]
  · intro s id d hv1 hv2 hall
    have hfind : s.carBatteryPacks.find? (fun item => item.id == id) = none := by
      rw [List.find?_eq_none]
      intro r hr
      simpa using hall r hr
    simp [carBatteryPacks.update, carBatteryPacks.list, hv1, hv2, hfind]

/-- C7, witness: updating the missing battery pack id 1 with no supplied
foreign key fails with NotFound. -/
theorem c7_witness :
    batteryPacks.update emptyStore 1 ⟨none, none, none, none, none, none⟩ =
      (.error (.notFound "Battery pack not found"), emptyStore) :=
  c7_update_notfound.2.1 emptyStore 1 ⟨none, none, none, none, none, none⟩
    (by decide) (by decide)

/-! Claim C8. -/

/-- C8: every failing create, update, or remove is atomic — whenever the
operation reports a failure, the persistent state at exit equals the state at
entry (no write has occurred, since every throw happens before `saveTable`). -/
theorem c8_atomic_failures (s : Store) (op : Op) (e : DBError)
    (h : (applyOp s op).1 = .error e) : (applyOp s op).2 = s := by
  cases op with
  | cmCreate d => simp [applyOp] at h
  | cmUpdate id d =>
      simp only [applyOp] at h ⊢
      rcases cmUpdate_cases s id d with heq | ⟨l₁, item, l₂, _, _, _, heq⟩
      · rw [heq]
      · rw [heq] at h
        simp [Except.map] at h
  | cmRemove id =>
      simp only [applyOp] at h ⊢
      rcases cmRemove_cases s id with ⟨f, heq⟩ | ⟨hg, heq⟩
      · rw [heq]
      · rw [heq] at h
        simp [Except.map] at h
  | bpCreate d =>
      simp only [applyOp] at h ⊢
      rcases bpCreate_cases s d with ⟨f, heq⟩ | ⟨hval, heq⟩
      · rw [heq]
      · rw [heq] at h
        simp [Except.map] at h
  | bpUpdate id d =>
      simp only [applyOp] at h ⊢
      rcases bpUpdate_cases s id d with ⟨f, heq⟩ | ⟨l₁, item, l₂, _, _, _, _, heq⟩
      · rw [heq]
      · rw [heq] at h
        simp [Except.map] at h
  | bpRemove id =>
      simp only [applyOp] at h ⊢
      rcases bpRemove_cases s id with ⟨f, heq⟩ | ⟨hg, heq⟩
      · rw [heq]
      · rw [heq] at h
        simp [Except.map] at h
  | carCreate d => simp [applyOp] at h
  | carUpdate id d =>
      simp only [applyOp] at h ⊢
      rcases carUpdate_cases s id d with heq | ⟨l₁, item, l₂, _, _, _, heq⟩
      · rw [heq]
      · rw [heq] at h
        simp [Except.map] at h
  | carRemove id =>
      simp only [applyOp] at h ⊢
      rcases carRemove_cases s id with ⟨f, heq⟩ | ⟨hg, heq⟩
      · rw [heq]
      · rw [heq] at h
        simp [Except.map] at h
  | cbpCreate d =>
      simp only [applyOp] at h ⊢
      rcases cbpCreate_cases s d with ⟨f, heq⟩ | ⟨hv1, hv2, heq⟩
      · rw [heq]
      · rw [heq] at h
        simp [Except.map] at h
  | cbpUpdate id d =>
      simp only [applyOp] at h ⊢
      rcases cbpUpdate_cases s id d with ⟨f, heq⟩ | ⟨l₁, item, l₂, _, _, _, _, _, heq⟩
      · rw [heq]
      · rw [heq] at h
        simp [Except.map] at h
  | cbpRemove id =>
      simp only [applyOp] at h ⊢
      rcases cbpRemove_cases s id with ⟨f, heq⟩ | heq
      · rw [heq]
      · rw [heq] at h
        simp [Except.map] at h

/-- C8, witness: a failing removal on the empty store leaves it unchanged. -/
theorem c8_witness :
    (applyOp emptyStore (Op.cmRemove 1)).1 = .error (.notFound "Cell model not found") ∧
    (applyOp emptyStore (Op.cmRemove 1)).2 = emptyStore :=
  ⟨by decide,
   c8_atomic_failures emptyStore (Op.cmRemove 1) (.notFound "Cell model not found") (by decide)⟩

/-! Claim C9. -/

set_option maxRecDepth 400000 in
/-- C9: from any state, `reset()` clears all four tables and re-seeds through
the ordinary `create` path in dependency order, leaving exactly 22 cell
models, 28 cars, 21 battery packs, and 28 junction rows. -/
theorem c9_reset_counts (s : Store) :
    (DB.reset s).map (fun st => (st.cellModels.length, st.cars.length,
      st.batteryPacks.length, st.carBatteryPacks.length)) = .ok (22, 28, 21, 28) := by
  rfl

/-! Claim C10. -/

/-- C10: `carBatteryPacks.create` succeeds whenever `carId` and
`batteryPackId` are each null or absent, and stores both fields exactly as
supplied, with no null default substituted — so a junction record with no
endpoints exists at the public interface (`get` returns it). -/
theorem c10_junction_verbatim (s : Store) (v w : Option Value)
    (hv : nullOrAbsent v = true) (hw : nullOrAbsent w = true) :
    (carBatteryPacks.create s ⟨v, w⟩).1 =
      .ok { id := getNextId (s.carBatteryPacks.map CarBatteryPack.id)
            carId := v
            batteryPackId := w } ∧
    (carBatteryPacks.create s ⟨v, w⟩).2.carBatteryPacks =
      s.carBatteryPacks ++
        [{ id := getNextId (s.carBatteryPacks.map CarBatteryPack.id)
           carId := v
           batteryPackId := w }] ∧
    carBatteryPacks.get (carBatteryPacks.create s ⟨v, w⟩).2
        (getNextId (s.carBatteryPacks.map CarBatteryPack.id)) =
      some { id := getNextId (s.carBatteryPacks.map CarBatteryPack.id)
             carId := v
             batteryPackId := w } := by
  have hv1 : validateFK ((⟨v, w⟩ : CarBatteryPackInput).carId) (s.cars.map Car.id) = true :=
    validateFK_nullOrAbsent _ _ hv
  have hv2 : validateFK ((⟨v, w⟩ : CarBatteryPackInput).batteryPackId)
      (s.batteryPacks.map BatteryPack.id) = true :=
    validateFK_nullOrAbsent _ _ hw
  obtain ⟨heq, hget⟩ := get_create_cbp s ⟨v, w⟩ hv1 hv2
  refine ⟨?_, ?_, hget⟩
  · rw [heq]
    rfl
  · rw [heq]
    rfl

/-- C10, witness: a junction row with `carId = null` and absent
`batteryPackId` on the empty store. -/
theorem c10_witness :
    (carBatteryPacks.create emptyStore ⟨some Value.null, none⟩).1 =
      .ok { id := getNextId (emptyStore.carBatteryPacks.map CarBatteryPack.id)
            carId := some Value.null
            batteryPackId := none } ∧
    (carBatteryPacks.create emptyStore ⟨some Value.null, none⟩).2.carBatteryPacks =
      emptyStore.carBatteryPacks ++
        [{ id := getNextId (emptyStore.carBatteryPacks.map CarBatteryPack.id)
           carId := some Value.null
           batteryPackId := none }] ∧
    carBatteryPacks.get (carBatteryPacks.create emptyStore ⟨some Value.null, none⟩).2
        (getNextId (emptyStore.carBatteryPacks.map CarBatteryPack.id)) =
      some { id := getNextId (emptyStore.carBatteryPacks.map CarBatteryPack.id)
             carId := some Value.null
             batteryPackId := none } :=
  c10_junction_verbatim emptyStore (some Value.null) none (by decide) (by decide)
